import Mathlib

/-!
# Smart home panel: state synchronisation between the touch UI and Home Assistant

A shallow embedding of `src/main/ui.c` (widgets, change-event callbacks, the
`ui_update_*` reconciler entry points) and `src/main/mqtt.c` (the REST command
dispatcher, the bounded response buffer, the response scanner and the pollers).

Conventions of the embedding

* A C string is the list of its characters up to, and not including, the
  terminating NUL.  A `char` array is the list of all its bytes; `cstr` reads
  the C string stored at its start.
* `int` is `Int`; arithmetic that can leave the 32-bit range is wrapped with
  `wrap32`, and `/` on `int` is `Int.tdiv` (truncation toward zero).  The one
  product that is not wrapped is the one in `kelvin_to_dial`, for the reason
  given there.
* A widget pointer is an `Option`: `none` is `NULL` (the widget has not been
  created).  Dereferencing `NULL` is undefined, so a callback that does it has
  no result (`none`).
* The HTTP transport is outside the repository.  What one call of
  `esp_http_client_perform` does is given by an `Outcome`: the transport
  result, the status code and the data events delivered to the event handler.
  Every request handed to the transport by `ha_post` is appended to the ghost
  field `posts` of the state.
-/

namespace SmartHomePanel

/-! ## C library -/

/-- The string terminator. -/
def NUL : Char := Char.ofNat 0

/-- The C string stored at the start of a byte region: the bytes before the first NUL. -/
def cstr (mem : List Char) : List Char := mem.takeWhile (fun c => c != NUL)

/-- Two's-complement wrap of a mathematical integer into the range of a 32-bit `int`. -/
def wrap32 (x : Int) : Int := (x + 2147483648) % 4294967296 - 2147483648

/-- Text produced by the conversion `%d`. -/
def fmt_d (x : Int) : List Char :=
  if x < 0 then '-' :: Nat.toDigits 10 x.natAbs else Nat.toDigits 10 x.toNat

/-- Call `snprintf(buf, size, ...)` whose fully formatted output is `text`: the
stored string (at most `size - 1` characters) and the returned length of the
untruncated output. -/
def snprintf (size : Nat) (text : List Char) : List Char × Int :=
  (text.take (size - 1), (text.length : Int))

/-- Call `snprintf(body + len, cap - len, ...)` on a `cap`-byte array that holds the
string `body`.  When `len > cap` the size argument wraps around as a `size_t` and the
write lands outside the array: no result.  When `len = cap` the size is zero and
nothing is stored. -/
def snprintf_at (cap : Nat) (body : List Char) (len : Int) (text : List Char) :
    Option (List Char × Int) :=
  if len < 0 ∨ (cap : Int) < len then none
  else if len = (cap : Int) then some (body, len + (text.length : Int))
  else some (body.take len.toNat ++ text.take (cap - len.toNat - 1), len + (text.length : Int))

/-- Library `strstr`: the suffix of `hay` starting at the first occurrence of `needle`. -/
def strstr : List Char → List Char → Option (List Char)
  | [], needle => if needle = [] then some [] else none
  | c :: cs, needle => if needle.isPrefixOf (c :: cs) then some (c :: cs) else strstr cs needle

/-- Library `strchr`: the suffix of `s` starting at the first occurrence of `ch`. -/
def strchr : List Char → Char → Option (List Char)
  | [], _ => none
  | c :: cs, ch => if c = ch then some (c :: cs) else strchr cs ch

/-- Test `strncmp(p, lit, n) == 0` for a literal `lit` of exactly `n` characters. -/
def strncmp_eq (p lit : List Char) (n : Nat) : Bool := p.take n == lit.take n

/-- Library `isspace` in the C locale. -/
def isspace (c : Char) : Bool :=
  c = ' ' || c = '\t' || c = '\n' || c = Char.ofNat 11 || c = Char.ofNat 12 || c = '\r'

/-- Library `isdigit`. -/
def isdigit (c : Char) : Bool := decide ('0'.toNat ≤ c.toNat) && decide (c.toNat ≤ '9'.toNat)

/-- The digit loop of `strtol` in base 10: accumulate while the next character is a digit. -/
def atoi_digits : List Char → Int → Int
  | [], acc => acc
  | c :: cs, acc =>
    if isdigit c then atoi_digits cs (acc * 10 + ((c.toNat : Int) - 48)) else acc

/-- Library `atoi`, that is `(int) strtol(s, NULL, 10)`: skip white space, read an
optional sign, read the digits; a value outside the range of `long` (32 bits on the
target) saturates, as `strtol` does. -/
def atoi (s : List Char) : Int :=
  let s1 := s.dropWhile isspace
  let neg := s1.head? == some '-'
  let s2 := if s1.head? == some '-' || s1.head? == some '+' then s1.drop 1 else s1
  let v := atoi_digits s2 0
  let r := if neg then -v else v
  if r > 2147483647 then 2147483647 else if r < -2147483648 then -2147483648 else r

/-! ## Widgets (LVGL) -/

/-- A slider widget: its range and current value. -/
structure Slider where
  min : Int
  max : Int
  value : Int
deriving DecidableEq, Repr

/-- LVGL `lv_slider_create`: range 0..100, value 0. -/
def lv_slider_create : Slider := { min := 0, max := 100, value := 0 }

/-- LVGL `lv_slider_set_range`: the current value is kept inside the new range. -/
def lv_slider_set_range (s : Slider) (lo hi : Int) : Slider :=
  { min := lo, max := hi,
    value := if s.value > hi then hi else if s.value < lo then lo else s.value }

/-- LVGL `lv_slider_set_value`: the value is clamped to the range of the slider. -/
def lv_slider_set_value (s : Slider) (v : Int) : Slider :=
  { s with value := if v > s.max then s.max else if v < s.min then s.min else v }

/-- LVGL `lv_slider_get_value`. -/
def lv_slider_get_value (s : Slider) : Int := s.value

/-- The static widget pointers of `ui.c` and the feedback guard.  A switch is its
`LV_STATE_CHECKED` flag, a label is its text. -/
structure Ui where
  sw_guld : Option Bool
  sw_video : Option Bool
  slider_bright : Option Slider
  slider_ct : Option Slider
  label_bright : Option (List Char)
  label_ct : Option (List Char)
  sw_iris : Option Bool
  slider_iris_bright : Option Slider
  label_iris_bright : Option (List Char)
  slider_solskydd : Option Slider
  label_solskydd : Option (List Char)
  s_updating_from_poll : Bool
deriving DecidableEq, Repr

/-- The statics of `ui.c` at program start: every pointer `NULL`, the guard false. -/
def Ui.boot : Ui :=
  { sw_guld := none, sw_video := none, slider_bright := none, slider_ct := none,
    label_bright := none, label_ct := none, sw_iris := none, slider_iris_bright := none,
    label_iris_bright := none, slider_solskydd := none, label_solskydd := none,
    s_updating_from_poll := false }

/-- The widget part of `ui_init`: every widget is created, with the ranges, values and
texts the source gives them. -/
def ui_init (u : Ui) : Ui :=
  { u with
    sw_guld := some false
    sw_video := some false
    label_bright := some "--%".toList
    slider_bright := some (lv_slider_set_value (lv_slider_set_range lv_slider_create 0 255) 128)
    label_ct := some "--K".toList
    slider_ct := some (lv_slider_set_value (lv_slider_set_range lv_slider_create 0 100) 50)
    sw_iris := some false
    label_iris_bright := some "--%".toList
    slider_iris_bright :=
      some (lv_slider_set_value (lv_slider_set_range lv_slider_create 0 255) 128)
    label_solskydd := some "--%".toList
    slider_solskydd := some (lv_slider_set_value (lv_slider_set_range lv_slider_create 0 100) 0) }

/-! ## Transport and program state -/

/-- One request handed to the HTTP client: the path below `HA_BASE_URL` and the body. -/
structure Request where
  path : List Char
  body : List Char
deriving DecidableEq, Repr

/-- What one `esp_http_client_perform` does: the transport result, the status code,
whether the response is chunked, and the payloads of the `HTTP_EVENT_ON_DATA` events. -/
structure Outcome where
  err : Int
  status : Int
  chunked : Bool
  data : List (List Char)
deriving DecidableEq, Repr

/-- The statics of `ui.c` and `mqtt.c`, and the log of requests sent. -/
structure World where
  ui : Ui
  s_response_buf : List Char
  s_response_len : Int
  posts : List Request
deriving DecidableEq, Repr

def ESP_OK : Int := 0

def ESP_FAIL : Int := -1

def HTTP_BUF_SIZE : Int := 1024

/-- The program state at start: zeroed statics, nothing sent. -/
def World.boot : World :=
  { ui := Ui.boot, s_response_buf := List.replicate 1024 NUL, s_response_len := 0, posts := [] }

/-! ## `mqtt.c`: response buffer and command dispatcher -/

/-- Library `memcpy(buf + off, src, n)` on an array: `n` bytes of `src` replace the
bytes of `buf` from offset `off`. -/
def memcpy (buf : List Char) (off : Nat) (src : List Char) (n : Nat) : List Char :=
  buf.take off ++ src.take n ++ buf.drop (off + n)

/-- Function `http_event_handler` on one `HTTP_EVENT_ON_DATA` event with payload `data`,
acting on `(s_response_buf, s_response_len)`.  A `memcpy` with a negative count or
outside the array is undefined: no result.  The payload is an object in the memory of
the device, so `data_len` is far below `2^31 - 1024` and the sum `s_response_len + copy`
is not wrapped. -/
def http_event_handler (chunked : Bool) (data : List Char) (st : List Char × Int) :
    Option (List Char × Int) :=
  if !chunked then
    let copy0 : Int := (data.length : Int)
    let copy : Int :=
      if st.2 + copy0 ≥ HTTP_BUF_SIZE - 1 then HTTP_BUF_SIZE - 1 - st.2 else copy0
    if copy < 0 ∨ st.2 < 0 ∨ st.2 + copy > HTTP_BUF_SIZE then none
    else some (memcpy st.1 st.2.toNat data copy.toNat, st.2 + copy)
  else some st

/-- The data events of one `esp_http_client_perform`, delivered in order to
`http_event_handler`. -/
def deliver (chunked : Bool) : List (List Char) → List Char × Int → Option (List Char × Int)
  | [], st => some st
  | d :: ds, st =>
    match http_event_handler chunked d st with
    | none => none
    | some st1 => deliver chunked ds st1

/-- Function `ha_post`: reset the response length, perform the request, classify the
result.  The URL is `HA_BASE_URL` (a build-time constant) followed by `path`. -/
def ha_post (path body : List Char) (o : Outcome) (w : World) : Option (Int × World) :=
  match deliver o.chunked o.data (w.s_response_buf, 0) with
  | none => none
  | some (buf, len) =>
    some (if o.err = ESP_OK ∧ o.status = 200 then ESP_OK else ESP_FAIL,
          { w with s_response_buf := buf, s_response_len := len,
                   posts := w.posts ++ [{ path := path, body := body }] })

/-- The common start of every request body: an opening brace and the `entity_id` key. -/
def body_open : List Char := "\x7b\"entity_id\":\"".toList

/-- Function `mqtt_publish_command`; the two log lines have no effect on the state. -/
def mqtt_publish_command (entity_id payload : List Char) (o : Outcome) (w : World) :
    Option World :=
  let service := if payload = "ON".toList then "turn_on".toList else "turn_off".toList
  let path := (snprintf 64 ("/api/services/light/".toList ++ service)).1
  let body := (snprintf 128 (body_open ++ entity_id ++ "\"\x7d".toList)).1
  (ha_post path body o w).map Prod.snd

/-- Function `ha_set_light_with_params`; its parameter `on` is written `on_`. -/
def ha_set_light_with_params (entity_id : List Char) (on_ : Bool)
    (brightness color_temp_kelvin : Int) (o : Outcome) (w : World) : Option World :=
  if !on_ then mqtt_publish_command entity_id "OFF".toList o w
  else
    let b0 := snprintf 192 (body_open ++ entity_id ++ "\"".toList)
    let r1 : Option (List Char × Int) :=
      if brightness ≥ 0 then
        snprintf_at 192 b0.1 b0.2 (",\"brightness\":".toList ++ fmt_d brightness)
      else some b0
    let r2 : Option (List Char × Int) :=
      r1.bind fun b1 =>
        if color_temp_kelvin > 0 then
          snprintf_at 192 b1.1 b1.2 (",\"color_temp_kelvin\":".toList ++ fmt_d color_temp_kelvin)
        else some b1
    let r3 : Option (List Char × Int) :=
      r2.bind fun b2 => snprintf_at 192 b2.1 b2.2 "\x7d".toList
    r3.bind fun b3 => (ha_post "/api/services/light/turn_on".toList b3.1 o w).map Prod.snd

/-- Function `ha_cover_set_position`. -/
def ha_cover_set_position (entity_id : List Char) (position : Int) (o : Outcome)
    (w : World) : Option World :=
  let body := (snprintf 128 (body_open ++ entity_id ++ "\",\"position\":".toList
    ++ fmt_d position ++ "\x7d".toList)).1
  (ha_post "/api/services/cover/set_cover_position".toList body o w).map Prod.snd

/-- The `brightness` member of a turn-on body: present exactly for a non-negative value. -/
def brightness_member (brightness : Int) : List Char :=
  if brightness ≥ 0 then ",\"brightness\":".toList ++ fmt_d brightness else []

/-- The `color_temp_kelvin` member of a turn-on body: present exactly for a positive value. -/
def kelvin_member (color_temp_kelvin : Int) : List Char :=
  if color_temp_kelvin > 0 then ",\"color_temp_kelvin\":".toList ++ fmt_d color_temp_kelvin
  else []

/-- The request `ha_set_light_with_params` is meant to send when nothing is truncated:
turn-off with the bare entity for `on` false, turn-on with the members for `on` true. -/
def light_request (entity_id : List Char) (on_ : Bool) (brightness color_temp_kelvin : Int) :
    Request :=
  if on_ then
    { path := "/api/services/light/turn_on".toList,
      body := body_open ++ entity_id ++ "\"".toList ++ brightness_member brightness ++
        kelvin_member color_temp_kelvin ++ "\x7d".toList }
  else
    { path := "/api/services/light/turn_off".toList,
      body := body_open ++ entity_id ++ "\"\x7d".toList }

/-! ## `ui.c`: change-event callbacks -/

/-- The expression `2900 + (ct_raw * (7000 - 2900)) / 100` of the callbacks. -/
def dial_to_kelvin (ct_raw : Int) : Int :=
  wrap32 (2900 + Int.tdiv (wrap32 (ct_raw * (7000 - 2900))) 100)

/-- The expression `(val * 100) / 255` shown on the brightness labels. -/
def brightness_to_percent (val : Int) : Int := Int.tdiv (wrap32 (val * 100)) 255

/-- Function `guld_switch_cb`. -/
def guld_switch_cb (o : Outcome) (w : World) : Option World :=
  match w.ui.sw_guld with
  | some is_on =>
    mqtt_publish_command "light.guldlampan".toList
      (if is_on then "ON".toList else "OFF".toList) o w
  | none => none

/-- Function `video_switch_cb`. -/
def video_switch_cb (o : Outcome) (w : World) : Option World :=
  match w.ui.sw_video, w.ui.slider_bright, w.ui.slider_ct with
  | some is_on, some sb, some sc =>
    let bright := lv_slider_get_value sb
    let ct_raw := lv_slider_get_value sc
    let ct_k := dial_to_kelvin ct_raw
    ha_set_light_with_params "light.videolampor".toList is_on bright ct_k o w
  | _, _, _ => none

/-- Function `bright_slider_cb`. -/
def bright_slider_cb (o : Outcome) (w : World) : Option World :=
  if w.ui.s_updating_from_poll then some w
  else
    match w.ui.slider_bright, w.ui.label_bright, w.ui.sw_video, w.ui.slider_ct with
    | some sb, some _, some is_on, some sc =>
      let val := lv_slider_get_value sb
      let ui1 := { w.ui with label_bright := some (fmt_d (brightness_to_percent val) ++ "%".toList) }
      let ct_raw := lv_slider_get_value sc
      let ct_k := dial_to_kelvin ct_raw
      ha_set_light_with_params "light.videolampor".toList is_on val ct_k o { w with ui := ui1 }
    | _, _, _, _ => none

/-- Function `ct_slider_cb`. -/
def ct_slider_cb (o : Outcome) (w : World) : Option World :=
  if w.ui.s_updating_from_poll then some w
  else
    match w.ui.slider_ct, w.ui.label_ct, w.ui.sw_video, w.ui.slider_bright with
    | some sc, some _, some is_on, some sb =>
      let ct_raw := lv_slider_get_value sc
      let ct_k := dial_to_kelvin ct_raw
      let ui1 := { w.ui with label_ct := some (fmt_d ct_k ++ "K".toList) }
      let bright := lv_slider_get_value sb
      ha_set_light_with_params "light.videolampor".toList is_on bright ct_k o { w with ui := ui1 }
    | _, _, _, _ => none

/-- Function `iris_switch_cb`. -/
def iris_switch_cb (o : Outcome) (w : World) : Option World :=
  match w.ui.sw_iris, w.ui.slider_iris_bright with
  | some is_on, some sb =>
    let bright := lv_slider_get_value sb
    ha_set_light_with_params "light.iris_golvlampa".toList is_on bright 0 o w
  | _, _ => none

/-- Function `iris_bright_slider_cb`. -/
def iris_bright_slider_cb (o : Outcome) (w : World) : Option World :=
  if w.ui.s_updating_from_poll then some w
  else
    match w.ui.slider_iris_bright, w.ui.label_iris_bright, w.ui.sw_iris with
    | some sb, some _, some is_on =>
      let val := lv_slider_get_value sb
      let ui1 :=
        { w.ui with label_iris_bright := some (fmt_d (brightness_to_percent val) ++ "%".toList) }
      ha_set_light_with_params "light.iris_golvlampa".toList is_on val 0 o { w with ui := ui1 }
    | _, _, _ => none

/-- Function `solskydd_slider_cb`. -/
def solskydd_slider_cb (o : Outcome) (w : World) : Option World :=
  if w.ui.s_updating_from_poll then some w
  else
    match w.ui.slider_solskydd, w.ui.label_solskydd with
    | some ss, some _ =>
      let pos := lv_slider_get_value ss
      let ui1 := { w.ui with label_solskydd := some (fmt_d pos ++ "%".toList) }
      ha_cover_set_position "cover.persienn_arbetsrum".toList pos o { w with ui := ui1 }
    | _, _ => none

/-- The seven change-event callbacks registered by `ui_init`. -/
inductive Callback where
  | guld_switch
  | video_switch
  | bright_slider
  | ct_slider
  | iris_switch
  | iris_bright_slider
  | solskydd_slider
deriving DecidableEq, Repr

/-- Run the callback registered under a name. -/
def Callback.run : Callback → Outcome → World → Option World
  | .guld_switch => guld_switch_cb
  | .video_switch => video_switch_cb
  | .bright_slider => bright_slider_cb
  | .ct_slider => ct_slider_cb
  | .iris_switch => iris_switch_cb
  | .iris_bright_slider => iris_bright_slider_cb
  | .solskydd_slider => solskydd_slider_cb

/-! ## `ui.c`: reconciler entry points -/

/-- Function `ui_update_light_state`. -/
def ui_update_light_state (entity_id : List Char) (state : Bool) (u : Ui) : Ui :=
  if entity_id = "light.guldlampan".toList then
    match u.sw_guld with
    | some _ => { u with sw_guld := some state }
    | none => u
  else if entity_id = "light.videolampor".toList then
    match u.sw_video with
    | some _ => { u with sw_video := some state }
    | none => u
  else if entity_id = "light.iris_golvlampa".toList then
    match u.sw_iris with
    | some _ => { u with sw_iris := some state }
    | none => u
  else u

/-- The expression `((color_temp_kelvin - 2900) * 100) / (7000 - 2900)` followed by the
two clamping statements of `ui_update_light_params`.  The expression is taken over the
integers.  Overflow of the signed product is undefined in C, and the compiler uses that:
it divides `color_temp_kelvin - 2900` by 41, so the compiled code yields the value of the
expression over the integers for every `int`, and never a wrapped product. -/
def kelvin_to_dial (color_temp_kelvin : Int) : Int :=
  let ct_raw := Int.tdiv ((color_temp_kelvin - 2900) * 100) (7000 - 2900)
  let ct_raw := if ct_raw < 0 then 0 else ct_raw
  if ct_raw > 100 then 100 else ct_raw

/-- First statement of the `light.videolampor` branch of `ui_update_light_params`:
`if (brightness >= 0 && slider_bright && label_bright) ...`. -/
def video_apply_brightness (brightness : Int) (u : Ui) : Ui :=
  match u.slider_bright, u.label_bright with
  | some sl, some _ =>
    if brightness ≥ 0 then
      { u with slider_bright := some (lv_slider_set_value sl brightness)
               label_bright := some (fmt_d (brightness_to_percent brightness) ++ "%".toList) }
    else u
  | _, _ => u

/-- Second statement of the `light.videolampor` branch of `ui_update_light_params`:
`if (color_temp_kelvin > 0 && slider_ct && label_ct) ...`. -/
def video_apply_color_temp (color_temp_kelvin : Int) (u : Ui) : Ui :=
  match u.slider_ct, u.label_ct with
  | some sl, some _ =>
    if color_temp_kelvin > 0 then
      { u with slider_ct := some (lv_slider_set_value sl (kelvin_to_dial color_temp_kelvin))
               label_ct := some (fmt_d color_temp_kelvin ++ "K".toList) }
    else u
  | _, _ => u

/-- The `light.videolampor` branch of `ui_update_light_params`. -/
def update_video_params (brightness color_temp_kelvin : Int) (u : Ui) : Ui :=
  video_apply_color_temp color_temp_kelvin (video_apply_brightness brightness u)

/-- The `light.iris_golvlampa` branch of `ui_update_light_params`. -/
def update_iris_params (brightness : Int) (u : Ui) : Ui :=
  match u.slider_iris_bright, u.label_iris_bright with
  | some sl, some _ =>
    if brightness ≥ 0 then
      { u with slider_iris_bright := some (lv_slider_set_value sl brightness)
               label_iris_bright :=
                 some (fmt_d (brightness_to_percent brightness) ++ "%".toList) }
    else u
  | _, _ => u

/-- Function `ui_update_light_params`. -/
def ui_update_light_params (entity_id : List Char) (brightness color_temp_kelvin : Int)
    (u : Ui) : Ui :=
  let u0 : Ui := { u with s_updating_from_poll := true }
  let u1 : Ui :=
    if entity_id = "light.videolampor".toList then
      update_video_params brightness color_temp_kelvin u0
    else if entity_id = "light.iris_golvlampa".toList then
      update_iris_params brightness u0
    else u0
  { u1 with s_updating_from_poll := false }

/-- Function `ui_update_cover_state`. -/
def ui_update_cover_state (entity_id : List Char) (position : Int) (u : Ui) : Ui :=
  if entity_id ≠ "cover.persienn_arbetsrum".toList then u
  else
    match u.slider_solskydd, u.label_solskydd with
    | some sl, some _ =>
      if position < 0 then u
      else
        let u0 : Ui := { u with s_updating_from_poll := true }
        let u1 : Ui :=
          { u0 with slider_solskydd := some (lv_slider_set_value sl position)
                    label_solskydd := some (fmt_d position ++ "%".toList) }
        { u1 with s_updating_from_poll := false }
    | _, _ => u

/-! ## `mqtt.c`: response scanner and pollers -/

/-- Function `parse_json_int`; `buf` is the byte region the pointer designates. -/
def parse_json_int (buf key : List Char) : Int :=
  let search := (snprintf 64 ("\"".toList ++ key ++ "\":".toList)).1
  match strstr (cstr buf) search with
  | none => -1
  | some p =>
    let p1 := p.drop search.length
    let p2 := p1.dropWhile (fun c => c == ' ')
    if strncmp_eq p2 "null".toList 4 then -1 else atoi p2

/-- The `"state"` scan at the head of `poll_light`: `none` on the two early returns (no
`"state":` in the response, no double quote after it), otherwise the value of `is_on`. -/
def poll_light_is_on (buf : List Char) : Option Bool :=
  match strstr (cstr buf) "\"state\":".toList with
  | none => none
  | some state_key =>
    match strchr (state_key.drop 8) '"' with
    | none => none
    | some val0 =>
      let val := val0.drop 1
      some (strncmp_eq val "on".toList 2 && ((val.drop 2).head? == some '"'))

/-- The part of `poll_light` after the terminator has been written: scan the response
and, when the UI lock is obtained, hand the snapshot to the reconciler. -/
def poll_light_apply (entity_id : List Char) (lock : Bool) (buf : List Char) (u : Ui) : Ui :=
  match poll_light_is_on buf with
  | none => u
  | some is_on =>
    let brightness := parse_json_int buf "brightness".toList
    let color_temp_kelvin := parse_json_int buf "color_temp_kelvin".toList
    if lock then
      ui_update_light_params entity_id brightness color_temp_kelvin
        (ui_update_light_state entity_id is_on u)
    else u

/-- Function `poll_light`. -/
def poll_light (entity_id : List Char) (o : Outcome) (lock : Bool) (w : World) :
    Option World :=
  match deliver o.chunked o.data (w.s_response_buf, 0) with
  | none => none
  | some (buf, len) =>
    if o.err ≠ ESP_OK ∨ o.status ≠ 200 then
      some { w with s_response_buf := buf, s_response_len := len }
    else
      let buf1 := buf.set len.toNat NUL
      some { w with s_response_buf := buf1, s_response_len := len,
                    ui := poll_light_apply entity_id lock buf1 w.ui }

/-- Function `poll_cover`. -/
def poll_cover (entity_id : List Char) (o : Outcome) (lock : Bool) (w : World) :
    Option World :=
  match deliver o.chunked o.data (w.s_response_buf, 0) with
  | none => none
  | some (buf, len) =>
    if o.err ≠ ESP_OK ∨ o.status ≠ 200 then
      some { w with s_response_buf := buf, s_response_len := len }
    else
      let buf1 := buf.set len.toNat NUL
      let position := parse_json_int buf1 "current_position".toList
      some { w with s_response_buf := buf1, s_response_len := len,
                    ui := if lock then ui_update_cover_state entity_id position w.ui
                          else w.ui }

/-- The number denoted by a run of decimal digits, most significant digit first. -/
def decimal_value (ds : List Char) : Nat :=
  Nat.ofDigits 10 (ds.reverse.map (fun c => c.toNat - 48))

/-- The pattern `"<key>":` that the scanner looks for. -/
def key_pattern (key : List Char) : List Char := "\"".toList ++ key ++ "\":".toList

/-! ## Concrete states used as examples -/

/-- The program right after `ui_init`: widgets built, nothing sent. -/
def World.built : World := { World.boot with ui := ui_init Ui.boot }

/-- The built program with the feedback guard raised. -/
def World.guarded : World :=
  { World.boot with ui := { ui_init Ui.boot with s_updating_from_poll := true } }

/-- A transport outcome: success, status 200, no response data. -/
def Outcome.ok : Outcome := { err := 0, status := 200, chunked := false, data := [] }

/-- A successful, unchunked response delivered as one data event. -/
def Outcome.reply (body : List Char) : Outcome :=
  { err := 0, status := 200, chunked := false, data := [body] }

/-- A key of 61 characters, one more than fits the 64-byte `search` array together with
the two quotes and the colon. -/
def long_key : List Char := List.replicate 61 'a'

/-! ## Reachable UI states -/

/-- A slider pointer that designates a slider of range `lo..hi`. -/
def slider_ok : Option Slider → Int → Int → Prop
  | some s, lo, hi => s.min = lo ∧ s.max = hi ∧ lo ≤ s.value ∧ s.value ≤ hi
  | none, _, _ => False

/-- The UI as `ui_init` leaves it and every later operation keeps it: all widgets exist
and each slider has the range `ui_init` gave it. -/
def Built (u : Ui) : Prop :=
  u.sw_guld.isSome ∧ u.sw_video.isSome ∧ u.sw_iris.isSome ∧
  u.label_bright.isSome ∧ u.label_ct.isSome ∧ u.label_iris_bright.isSome ∧
  u.label_solskydd.isSome ∧
  slider_ok u.slider_bright 0 255 ∧ slider_ok u.slider_ct 0 100 ∧
  slider_ok u.slider_iris_bright 0 255 ∧ slider_ok u.slider_solskydd 0 100

end SmartHomePanel

namespace SmartHomePanel

/-! ## Transport lemmas -/

theorem http_event_handler_some (chunked : Bool) (d buf : List Char) (len : Int)
    (h0 : 0 ≤ len) (h1 : len ≤ 1023) :
    ∃ buf1 len1, http_event_handler chunked d (buf, len) = some (buf1, len1) ∧
      0 ≤ len1 ∧ len1 ≤ 1023 := by
  unfold http_event_handler
  cases chunked
  · simp only [Bool.not_false, if_true, HTTP_BUF_SIZE]
    have hd : (0 : Int) ≤ (d.length : Int) := Int.ofNat_nonneg _
    split_ifs with hc hu hu
    · omega
    · exact ⟨_, _, rfl, by omega, by omega⟩
    · omega
    · exact ⟨_, _, rfl, by omega, by omega⟩
  · exact ⟨buf, len, by simp, h0, h1⟩

theorem deliver_some (chunked : Bool) (ds : List (List Char)) :
    ∀ (buf : List Char) (len : Int), 0 ≤ len → len ≤ 1023 →
      ∃ buf1 len1, deliver chunked ds (buf, len) = some (buf1, len1) ∧
        0 ≤ len1 ∧ len1 ≤ 1023 := by
  induction ds with
  | nil => intro buf len h0 h1; exact ⟨buf, len, rfl, h0, h1⟩
  | cons d ds ih =>
    intro buf len h0 h1
    obtain ⟨b1, l1, he, h2, h3⟩ := http_event_handler_some chunked d buf len h0 h1
    obtain ⟨b2, l2, hd, h4, h5⟩ := ih b1 l1 h2 h3
    exact ⟨b2, l2, by simp only [deliver, he, hd], h4, h5⟩

/-- Every `ha_post` completes: it returns its classification, logs exactly the request it
was given, and touches only the response buffer statics. -/
theorem ha_post_some (path body : List Char) (o : Outcome) (w : World) :
    ∃ buf len, ha_post path body o w =
      some (if o.err = ESP_OK ∧ o.status = 200 then ESP_OK else ESP_FAIL,
            { w with s_response_buf := buf, s_response_len := len,
                     posts := w.posts ++ [{ path := path, body := body }] }) := by
  obtain ⟨b, l, hd, -, -⟩ := deliver_some o.chunked o.data w.s_response_buf 0 le_rfl (by norm_num)
  exact ⟨b, l, by simp only [ha_post, hd]⟩

/-- A request sent through `ha_post` and its effect on the state: one more entry in the
log, the UI untouched. -/
theorem ha_post_effect (path body : List Char) (o : Outcome) (w : World) :
    ∃ w1, (ha_post path body o w).map Prod.snd = some w1 ∧
      w1.posts = w.posts ++ [{ path := path, body := body }] ∧ w1.ui = w.ui := by
  obtain ⟨b, l, h⟩ := ha_post_some path body o w
  rw [h]
  exact ⟨_, rfl, rfl, rfl⟩

/-! ## Command dispatcher lemmas -/

theorem snprintf_fit (size : Nat) (text : List Char) (h : text.length < size) :
    snprintf size text = (text, (text.length : Int)) := by
  simp only [snprintf, Prod.mk.injEq, and_true]
  exact List.take_of_length_le (by omega)

theorem snprintf_at_fit (cap : Nat) (body text : List Char)
    (h : body.length + text.length < cap) :
    snprintf_at cap body (body.length : Int) text =
      some (body ++ text, ((body ++ text).length : Int)) := by
  unfold snprintf_at
  have h1 : ¬ (((body.length : Int) < 0) ∨ ((cap : Int) < (body.length : Int))) := by omega
  have h2 : ¬ ((body.length : Int) = (cap : Int)) := by omega
  rw [if_neg h1, if_neg h2]
  simp only [Int.toNat_ofNat, List.take_length, List.length_append, Nat.cast_add,
    Option.some.injEq, Prod.mk.injEq, and_true, List.append_cancel_left_eq]
  exact List.take_of_length_le (by omega)

/-- A call of `mqtt_publish_command` sends one request and leaves the UI alone. -/
theorem mqtt_publish_command_effect (entity_id payload : List Char) (o : Outcome) (w : World) :
    ∃ w1, mqtt_publish_command entity_id payload o w = some w1 ∧
      w1.posts = w.posts ++
        [{ path := (snprintf 64 ("/api/services/light/".toList ++
                      (if payload = "ON".toList then "turn_on".toList
                       else "turn_off".toList))).1,
           body := (snprintf 128 (body_open ++ entity_id ++ "\"\x7d".toList)).1 }] ∧
      w1.ui = w.ui := by
  unfold mqtt_publish_command
  exact ha_post_effect _ _ o w

/-- A call of `ha_cover_set_position` sends one request and leaves the UI alone. -/
theorem ha_cover_set_position_effect (entity_id : List Char) (position : Int) (o : Outcome)
    (w : World) :
    ∃ w1, ha_cover_set_position entity_id position o w = some w1 ∧
      w1.posts = w.posts ++
        [{ path := "/api/services/cover/set_cover_position".toList,
           body := (snprintf 128 (body_open ++ entity_id ++ "\",\"position\":".toList
             ++ fmt_d position ++ "\x7d".toList)).1 }] ∧
      w1.ui = w.ui := by
  unfold ha_cover_set_position
  exact ha_post_effect _ _ o w

/-- With `on` true and a body that fits the 192-byte array, `ha_set_light_with_params`
sends one turn-on request whose body is the concatenation of the members. -/
theorem ha_set_light_on_effect (entity_id : List Char) (brightness color_temp_kelvin : Int)
    (o : Outcome) (w : World)
    (hfit : (body_open ++ entity_id ++ "\"".toList ++ brightness_member brightness ++
      kelvin_member color_temp_kelvin ++ "\x7d".toList).length < 192) :
    ∃ w1, ha_set_light_with_params entity_id true brightness color_temp_kelvin o w = some w1 ∧
      w1.posts = w.posts ++
        [{ path := "/api/services/light/turn_on".toList,
           body := body_open ++ entity_id ++ "\"".toList ++ brightness_member brightness ++
             kelvin_member color_temp_kelvin ++ "\x7d".toList }] ∧
      w1.ui = w.ui := by
  simp only [List.length_append] at hfit
  have e0 : snprintf 192 (body_open ++ entity_id ++ "\"".toList) =
      (body_open ++ entity_id ++ "\"".toList,
        ((body_open ++ entity_id ++ "\"".toList).length : Int)) :=
    snprintf_fit _ _ (by simp only [List.length_append]; omega)
  have e1 : (if brightness ≥ 0 then
        snprintf_at 192 (body_open ++ entity_id ++ "\"".toList)
          ((body_open ++ entity_id ++ "\"".toList).length : Int)
          (",\"brightness\":".toList ++ fmt_d brightness)
      else some (body_open ++ entity_id ++ "\"".toList,
        ((body_open ++ entity_id ++ "\"".toList).length : Int))) =
      some (body_open ++ entity_id ++ "\"".toList ++ brightness_member brightness,
        ((body_open ++ entity_id ++ "\"".toList ++ brightness_member brightness).length : Int)) := by
    unfold brightness_member at hfit ⊢
    split_ifs with hb
    · rw [if_pos hb] at hfit
      exact snprintf_at_fit _ _ _ (by simp only [List.length_append] at hfit ⊢; omega)
    · simp
  have e2 : (if color_temp_kelvin > 0 then
        snprintf_at 192 (body_open ++ entity_id ++ "\"".toList ++ brightness_member brightness)
          ((body_open ++ entity_id ++ "\"".toList ++ brightness_member brightness).length : Int)
          (",\"color_temp_kelvin\":".toList ++ fmt_d color_temp_kelvin)
      else some (body_open ++ entity_id ++ "\"".toList ++ brightness_member brightness,
        ((body_open ++ entity_id ++ "\"".toList ++ brightness_member brightness).length : Int))) =
      some (body_open ++ entity_id ++ "\"".toList ++ brightness_member brightness ++
          kelvin_member color_temp_kelvin,
        ((body_open ++ entity_id ++ "\"".toList ++ brightness_member brightness ++
          kelvin_member color_temp_kelvin).length : Int)) := by
    unfold kelvin_member at hfit ⊢
    split_ifs with hk
    · rw [if_pos hk] at hfit
      exact snprintf_at_fit _ _ _ (by simp only [List.length_append] at hfit ⊢; omega)
    · simp
  have e3 := snprintf_at_fit 192 (body_open ++ entity_id ++ "\"".toList ++
      brightness_member brightness ++ kelvin_member color_temp_kelvin) "\x7d".toList
      (by simp only [List.length_append]; omega)
  unfold ha_set_light_with_params
  simp only [Bool.not_true, Bool.false_eq_true, if_false, e0, e1, Option.some_bind, e2, e3]
  exact ha_post_effect _ _ o w

/-! ## Formatting lemmas -/

theorem fmt_d_length (x : Int) (e : Nat) (h0 : 0 ≤ x) (he : 0 < e) (hx : x < 10 ^ e) :
    (fmt_d x).length ≤ e := by
  unfold fmt_d
  rw [if_neg (by omega)]
  have hn : x.toNat < 10 ^ e := by
    have : ((x.toNat : Nat) : Int) < ((10 ^ e : Nat) : Int) := by
      rw [Int.toNat_of_nonneg h0]; push_cast; exact hx
    exact_mod_cast this
  exact Nat.toDigitsCore_length 10 (by decide) (x.toNat + 1) x.toNat e hn he

theorem wrap32_id (x : Int) (h0 : -2147483648 ≤ x) (h1 : x ≤ 2147483647) : wrap32 x = x := by
  unfold wrap32; omega

theorem dial_to_kelvin_eq (d : Int) (h0 : 0 ≤ d) (h1 : d ≤ 100) :
    dial_to_kelvin d = 2900 + d * (7000 - 2900) / 100 := by
  unfold dial_to_kelvin
  have e1 : wrap32 (d * (7000 - 2900)) = d * (7000 - 2900) := wrap32_id _ (by omega) (by omega)
  rw [e1, Int.tdiv_eq_ediv (by omega) (by norm_num)]
  exact wrap32_id _ (by omega) (by omega)

theorem dial_to_kelvin_bounds (d : Int) (h0 : 0 ≤ d) (h1 : d ≤ 100) :
    2900 ≤ dial_to_kelvin d ∧ dial_to_kelvin d ≤ 7000 := by
  rw [dial_to_kelvin_eq d h0 h1]; omega

theorem brightness_member_length (b : Int) (hb : b ≤ 2147483647) :
    (brightness_member b).length ≤ 24 := by
  unfold brightness_member
  split_ifs with h
  · have := fmt_d_length b 10 h (by norm_num) (by norm_num; omega)
    have e : ",\"brightness\":".toList.length = 14 := by decide
    simp only [List.length_append, e]; omega
  · simp

theorem kelvin_member_length (k : Int) (hk : k ≤ 2147483647) :
    (kelvin_member k).length ≤ 31 := by
  unfold kelvin_member
  split_ifs with h
  · have := fmt_d_length k 10 (by omega) (by norm_num) (by norm_num; omega)
    have e : ",\"color_temp_kelvin\":".toList.length = 21 := by decide
    simp only [List.length_append, e]; omega
  · simp

theorem body_open_length : body_open.length = 14 := by decide

/-- Whatever `on` is, `ha_set_light_with_params` sends exactly the intended request when
the entity id is short enough for both body arrays. -/
theorem ha_set_light_effect (entity_id : List Char) (on_ : Bool) (b k : Int) (o : Outcome)
    (w : World) (hid : entity_id.length ≤ 111) (hb : b ≤ 2147483647) (hk : k ≤ 2147483647) :
    ∃ w1, ha_set_light_with_params entity_id on_ b k o w = some w1 ∧
      w1.posts = w.posts ++ [light_request entity_id on_ b k] ∧ w1.ui = w.ui := by
  cases on_
  · obtain ⟨w1, h1, h2, h3⟩ := mqtt_publish_command_effect entity_id "OFF".toList o w
    refine ⟨w1, ?_, ?_, h3⟩
    · simpa only [ha_set_light_with_params, Bool.not_false, if_true] using h1
    · rw [h2]
      have e1 : ¬ ("OFF".toList = "ON".toList) := by decide
      have e2 : (snprintf 64 ("/api/services/light/".toList ++ "turn_off".toList)).1 =
          "/api/services/light/turn_off".toList := by decide
      have e3 : snprintf 128 (body_open ++ entity_id ++ "\"\x7d".toList) =
          (body_open ++ entity_id ++ "\"\x7d".toList, _) :=
        snprintf_fit _ _ (by
          have e : "\"\x7d".toList.length = 2 := by decide
          simp only [List.length_append, body_open_length, e]; omega)
      simp only [if_neg e1, e2, e3, light_request, Bool.false_eq_true, if_false]
  · have hfit : (body_open ++ entity_id ++ "\"".toList ++ brightness_member b ++
        kelvin_member k ++ "\x7d".toList).length < 192 := by
      have := brightness_member_length b hb
      have := kelvin_member_length k hk
      have e1 : "\"".toList.length = 1 := by decide
      have e2 : "\x7d".toList.length = 1 := by decide
      simp only [List.length_append, body_open_length, e1, e2]; omega
    obtain ⟨w1, h1, h2, h3⟩ := ha_set_light_on_effect entity_id b k o w hfit
    exact ⟨w1, h1, by simpa only [light_request, if_true] using h2, h3⟩

/-! ## Callback lemmas -/

theorem slider_ok_some {s : Option Slider} {lo hi : Int} (h : slider_ok s lo hi) :
    ∃ sl, s = some sl ∧ sl.min = lo ∧ sl.max = hi ∧ lo ≤ sl.value ∧ sl.value ≤ hi := by
  cases s with
  | none => exact absurd h (by simp [slider_ok])
  | some sl => exact ⟨sl, rfl, h⟩

theorem guld_switch_cb_effect (o : Outcome) (w : World) (is_on : Bool)
    (h1 : w.ui.sw_guld = some is_on) :
    ∃ w1, guld_switch_cb o w = some w1 ∧
      w1.posts = w.posts ++
        [{ path := if is_on then "/api/services/light/turn_on".toList
                   else "/api/services/light/turn_off".toList,
           body := body_open ++ "light.guldlampan".toList ++ "\"\x7d".toList }] ∧
      w1.ui = w.ui := by
  obtain ⟨w1, e1, e2, e3⟩ := mqtt_publish_command_effect "light.guldlampan".toList
    (if is_on then "ON".toList else "OFF".toList) o w
  refine ⟨w1, by simp only [guld_switch_cb, h1, e1], ?_, e3⟩
  have e : ({ path := (snprintf 64 ("/api/services/light/".toList ++
                (if (if is_on then "ON".toList else "OFF".toList) = "ON".toList
                 then "turn_on".toList else "turn_off".toList))).1,
              body := (snprintf 128
                (body_open ++ "light.guldlampan".toList ++ "\"\x7d".toList)).1 } : Request) =
      { path := if is_on then "/api/services/light/turn_on".toList
                else "/api/services/light/turn_off".toList,
        body := body_open ++ "light.guldlampan".toList ++ "\"\x7d".toList } := by
    cases is_on <;> decide
  rw [e2, e]

theorem video_switch_cb_effect (o : Outcome) (w : World) (is_on : Bool) (sb sc : Slider)
    (h1 : w.ui.sw_video = some is_on) (h2 : w.ui.slider_bright = some sb)
    (h3 : w.ui.slider_ct = some sc) (hb : sb.value ≤ 255) (hc0 : 0 ≤ sc.value)
    (hc1 : sc.value ≤ 100) :
    ∃ w1, video_switch_cb o w = some w1 ∧
      w1.posts = w.posts ++
        [light_request "light.videolampor".toList is_on sb.value (dial_to_kelvin sc.value)] ∧
      w1.ui = w.ui := by
  have hk := dial_to_kelvin_bounds sc.value hc0 hc1
  simp only [video_switch_cb, h1, h2, h3, lv_slider_get_value]
  exact ha_set_light_effect _ _ _ _ o w (by decide) (by omega) (by omega)

theorem bright_slider_cb_effect (o : Outcome) (w : World) (is_on : Bool) (sb sc : Slider)
    (t : List Char) (hg : w.ui.s_updating_from_poll = false)
    (h1 : w.ui.sw_video = some is_on) (h2 : w.ui.slider_bright = some sb)
    (h3 : w.ui.slider_ct = some sc) (h4 : w.ui.label_bright = some t)
    (hb : sb.value ≤ 255) (hc0 : 0 ≤ sc.value) (hc1 : sc.value ≤ 100) :
    ∃ w1, bright_slider_cb o w = some w1 ∧
      w1.posts = w.posts ++
        [light_request "light.videolampor".toList is_on sb.value (dial_to_kelvin sc.value)] ∧
      w1.ui = { w.ui with
        label_bright := some (fmt_d (brightness_to_percent sb.value) ++ "%".toList) } := by
  have hk := dial_to_kelvin_bounds sc.value hc0 hc1
  simp only [bright_slider_cb, hg, h1, h2, h3, h4, lv_slider_get_value, Bool.false_eq_true,
    if_false]
  exact ha_set_light_effect _ _ _ _ o _ (by decide) (by omega) (by omega)

theorem ct_slider_cb_effect (o : Outcome) (w : World) (is_on : Bool) (sb sc : Slider)
    (t : List Char) (hg : w.ui.s_updating_from_poll = false)
    (h1 : w.ui.sw_video = some is_on) (h2 : w.ui.slider_bright = some sb)
    (h3 : w.ui.slider_ct = some sc) (h4 : w.ui.label_ct = some t)
    (hb : sb.value ≤ 255) (hc0 : 0 ≤ sc.value) (hc1 : sc.value ≤ 100) :
    ∃ w1, ct_slider_cb o w = some w1 ∧
      w1.posts = w.posts ++
        [light_request "light.videolampor".toList is_on sb.value (dial_to_kelvin sc.value)] ∧
      w1.ui = { w.ui with
        label_ct := some (fmt_d (dial_to_kelvin sc.value) ++ "K".toList) } := by
  have hk := dial_to_kelvin_bounds sc.value hc0 hc1
  simp only [ct_slider_cb, hg, h1, h2, h3, h4, lv_slider_get_value, Bool.false_eq_true,
    if_false]
  exact ha_set_light_effect _ _ _ _ o _ (by decide) (by omega) (by omega)

theorem iris_switch_cb_effect (o : Outcome) (w : World) (is_on : Bool) (sb : Slider)
    (h1 : w.ui.sw_iris = some is_on) (h2 : w.ui.slider_iris_bright = some sb)
    (hb : sb.value ≤ 255) :
    ∃ w1, iris_switch_cb o w = some w1 ∧
      w1.posts = w.posts ++ [light_request "light.iris_golvlampa".toList is_on sb.value 0] ∧
      w1.ui = w.ui := by
  simp only [iris_switch_cb, h1, h2, lv_slider_get_value]
  exact ha_set_light_effect _ _ _ _ o w (by decide) (by omega) (by omega)

theorem iris_bright_slider_cb_effect (o : Outcome) (w : World) (is_on : Bool) (sb : Slider)
    (t : List Char) (hg : w.ui.s_updating_from_poll = false)
    (h1 : w.ui.sw_iris = some is_on) (h2 : w.ui.slider_iris_bright = some sb)
    (h4 : w.ui.label_iris_bright = some t) (hb : sb.value ≤ 255) :
    ∃ w1, iris_bright_slider_cb o w = some w1 ∧
      w1.posts = w.posts ++ [light_request "light.iris_golvlampa".toList is_on sb.value 0] ∧
      w1.ui = { w.ui with
        label_iris_bright := some (fmt_d (brightness_to_percent sb.value) ++ "%".toList) } := by
  simp only [iris_bright_slider_cb, hg, h1, h2, h4, lv_slider_get_value, Bool.false_eq_true,
    if_false]
  exact ha_set_light_effect _ _ _ _ o _ (by decide) (by omega) (by omega)

/-- The body of the request `ha_cover_set_position` sends for the panel's cover. -/
theorem cover_body_fit (pos : Int) (h0 : 0 ≤ pos) (h1 : pos ≤ 100) :
    (snprintf 128 (body_open ++ "cover.persienn_arbetsrum".toList ++ "\",\"position\":".toList
      ++ fmt_d pos ++ "\x7d".toList)).1 =
    body_open ++ "cover.persienn_arbetsrum".toList ++ "\",\"position\":".toList
      ++ fmt_d pos ++ "\x7d".toList := by
  have hl := fmt_d_length pos 3 h0 (by norm_num) (by norm_num; omega)
  have e1 : "cover.persienn_arbetsrum".toList.length = 24 := by decide
  have e2 : "\",\"position\":".toList.length = 13 := by decide
  have e3 : "\x7d".toList.length = 1 := by decide
  rw [snprintf_fit _ _ (by simp only [List.length_append, body_open_length, e1, e2, e3]; omega)]

theorem solskydd_slider_cb_effect (o : Outcome) (w : World) (ss : Slider) (t : List Char)
    (hg : w.ui.s_updating_from_poll = false) (h1 : w.ui.slider_solskydd = some ss)
    (h2 : w.ui.label_solskydd = some t) (h0 : 0 ≤ ss.value) (h100 : ss.value ≤ 100) :
    ∃ w1, solskydd_slider_cb o w = some w1 ∧
      w1.posts = w.posts ++
        [{ path := "/api/services/cover/set_cover_position".toList,
           body := body_open ++ "cover.persienn_arbetsrum".toList ++
             "\",\"position\":".toList ++ fmt_d ss.value ++ "\x7d".toList }] ∧
      w1.ui = { w.ui with label_solskydd := some (fmt_d ss.value ++ "%".toList) } := by
  simp only [solskydd_slider_cb, hg, h1, h2, lv_slider_get_value, Bool.false_eq_true, if_false]
  refine (ha_cover_set_position_effect _ _ o _).imp fun w1 h => ⟨h.1, ?_, h.2.2⟩
  rw [h.2.1, cover_body_fit ss.value h0 h100]

/-! ## Library string lemmas -/

theorem strstr_eq_none_iff (needle : List Char) :
    ∀ hay : List Char, strstr hay needle = none ↔ ¬ needle <:+: hay := by
  intro hay
  induction hay with
  | nil =>
    by_cases h : needle = []
    · simp [strstr, h]
    · simp [strstr, h]
  | cons c cs ih =>
    unfold strstr
    by_cases hp : needle.isPrefixOf (c :: cs) = true
    · have hpre : needle <+: c :: cs := List.isPrefixOf_iff_prefix.mp hp
      simp only [hp, if_true]
      constructor
      · intro h; exact absurd h (by simp)
      · intro h; exact absurd hpre.isInfix h
    · have hpre : ¬ needle <+: c :: cs := fun h => hp (List.isPrefixOf_iff_prefix.mpr h)
      simp only [hp, if_false, ih, List.infix_cons_iff, hpre, false_or, Bool.false_eq_true]

/-- On a string whose first occurrence of `needle` starts right after `pre`, `strstr`
returns the suffix that starts with that occurrence. -/
theorem strstr_first (needle rest : List Char) :
    ∀ pre : List Char, ¬ needle <:+: pre ++ needle.dropLast →
      strstr (pre ++ needle ++ rest) needle = some (needle ++ rest) := by
  intro pre
  induction pre with
  | nil =>
    intro h
    have hne : needle ≠ [] := fun e => h (by subst e; exact List.nil_infix)
    obtain ⟨c, cs, hc⟩ := List.exists_cons_of_ne_nil hne
    have hp : needle.isPrefixOf (needle ++ rest) = true :=
      List.isPrefixOf_iff_prefix.mpr (List.prefix_append _ _)
    subst hc
    simp only [List.nil_append, List.cons_append] at hp ⊢
    unfold strstr
    rw [if_pos hp]
  | cons p ps ih =>
    intro h
    have hne : needle ≠ [] := fun e => h (by subst e; exact List.nil_infix)
    have hnp : ¬ needle.isPrefixOf (p :: (ps ++ needle ++ rest)) = true := by
      intro hp
      have hpre : needle <+: p :: (ps ++ needle ++ rest) := List.isPrefixOf_iff_prefix.mp hp
      have hA : (p :: ps) ++ needle.dropLast <+: p :: (ps ++ needle ++ rest) := by
        refine ⟨[needle.getLast hne] ++ rest, ?_⟩
        conv_rhs => rw [← List.dropLast_append_getLast hne]
        simp only [List.cons_append, List.append_assoc]
      have hle : needle.length ≤ ((p :: ps) ++ needle.dropLast).length := by
        simp only [List.length_append, List.length_cons, List.length_dropLast]
        omega
      exact h (List.prefix_of_prefix_length_le hpre hA hle).isInfix
    have hrec : ¬ needle <:+: ps ++ needle.dropLast := by
      intro hi
      apply h
      rw [List.cons_append, List.infix_cons_iff]
      exact Or.inr hi
    simp only [List.cons_append]
    unfold strstr
    rw [if_neg hnp]
    exact ih hrec

theorem strchr_of_mem (ch : Char) :
    ∀ s : List Char, ch ∈ s → ∃ a b, s = a ++ ch :: b ∧ ch ∉ a ∧ strchr s ch = some (ch :: b) := by
  intro s
  induction s with
  | nil => intro h; exact absurd h (by simp)
  | cons c cs ih =>
    intro h
    by_cases hc : c = ch
    · subst hc
      exact ⟨[], cs, rfl, by simp, by simp [strchr]⟩
    · have hm : ch ∈ cs := by
        rcases List.mem_cons.mp h with e | e
        · exact absurd e.symm hc
        · exact e
      obtain ⟨a, b, e1, e2, e3⟩ := ih hm
      refine ⟨c :: a, b, by rw [e1]; rfl, ?_, ?_⟩
      · simp only [List.mem_cons, not_or]
        exact ⟨fun e => hc e.symm, e2⟩
      · simp only [strchr, hc, if_false, e3]

theorem strchr_eq_none (ch : Char) :
    ∀ s : List Char, ch ∉ s → strchr s ch = none := by
  intro s
  induction s with
  | nil => intro _; rfl
  | cons c cs ih =>
    intro h
    simp only [List.mem_cons, not_or] at h
    simp only [strchr, if_neg (fun e : c = ch => h.1 e.symm), ih h.2]

theorem cstr_of_no_nul (s : List Char) (h : NUL ∉ s) : cstr s = s := by
  unfold cstr
  rw [List.takeWhile_eq_self_iff]
  intro x hx
  simp only [bne_iff_ne, ne_eq]
  intro e
  exact h (e ▸ hx)

/-- The C string in a region is fixed by the bytes before its first NUL: what follows the
terminator is never part of it. -/
theorem cstr_terminated (s tail : List Char) (h : NUL ∉ s) : cstr (s ++ NUL :: tail) = s := by
  unfold cstr
  rw [List.takeWhile_append_of_pos]
  · simp [List.takeWhile]
  · intro x hx
    simp only [bne_iff_ne, ne_eq]
    intro e
    exact h (e ▸ hx)

/-! ## Scanner lemmas -/

theorem isdigit_iff (c : Char) : isdigit c = true ↔ 48 ≤ c.toNat ∧ c.toNat ≤ 57 := by
  have e0 : '0'.toNat = 48 := by decide
  have e9 : '9'.toNat = 57 := by decide
  simp only [isdigit, Bool.and_eq_true, decide_eq_true_eq, e0, e9]

theorem isdigit_not_special (c : Char) (h : isdigit c = true) :
    isspace c = false ∧ c ≠ '-' ∧ c ≠ '+' ∧ c ≠ ' ' ∧ c ≠ 'n' := by
  rw [isdigit_iff] at h
  have key : ∀ d : Char, (d.toNat < 48 ∨ 57 < d.toNat) → c ≠ d := by
    intro d hd e
    subst e
    omega
  refine ⟨?_, key _ (by decide), key _ (by decide), key _ (by decide), key _ (by decide)⟩
  have h1 := key ' ' (by decide)
  have h2 := key '\t' (by decide)
  have h3 := key '\n' (by decide)
  have h4 := key (Char.ofNat 11) (by decide)
  have h5 := key (Char.ofNat 12) (by decide)
  have h6 := key '\r' (by decide)
  simp only [isspace, h1, h2, h3, h4, h5, h6, decide_False, Bool.or_self]

/-- The digit loop reads the whole run of digits and stops at the first character that is
not a digit (or at the end of the string). -/
theorem atoi_digits_run (rest : List Char)
    (hrest : ∀ c, rest.head? = some c → isdigit c = false) :
    ∀ (ds : List Char) (acc : Int), (∀ c ∈ ds, isdigit c = true) →
      atoi_digits (ds ++ rest) acc = acc * 10 ^ ds.length + (decimal_value ds : Int) := by
  intro ds
  induction ds with
  | nil =>
    intro acc _
    cases rest with
    | nil => simp [atoi_digits, decimal_value]
    | cons r rs =>
      have hr := hrest r rfl
      simp [atoi_digits, decimal_value, hr]
  | cons d ds ih =>
    intro acc hd
    have h1 : isdigit d = true := hd d (List.mem_cons_self _ _)
    have h2 : ∀ c ∈ ds, isdigit c = true := fun c hc => hd c (List.mem_cons_of_mem _ hc)
    have hb := (isdigit_iff d).mp h1
    simp only [List.cons_append, atoi_digits, h1, if_true, List.append_eq]
    rw [ih _ h2]
    have hv : decimal_value (d :: ds) = decimal_value ds + 10 ^ ds.length * (d.toNat - 48) := by
      simp only [decimal_value, List.reverse_cons, List.map_append, List.map_cons, List.map_nil,
        Nat.ofDigits_append, Nat.ofDigits_singleton, List.length_map, List.length_reverse]
    rw [hv]
    have hc : ((d.toNat - 48 : Nat) : Int) = (d.toNat : Int) - 48 := by omega
    push_cast
    rw [hc, List.length_cons, pow_succ]
    ring

/-- On a run of digits followed by something that is not a digit, `atoi` returns the number
the digits denote, as long as it fits an `int`. -/
theorem atoi_of_digits (d : Char) (ds rest : List Char) (hd : ∀ c ∈ d :: ds, isdigit c = true)
    (hrest : ∀ c, rest.head? = some c → isdigit c = false)
    (hfit : decimal_value (d :: ds) ≤ 2147483647) :
    atoi (d :: ds ++ rest) = (decimal_value (d :: ds) : Int) := by
  have h1 : isdigit d = true := hd d (List.mem_cons_self _ _)
  obtain ⟨hs, hm, hp, -, -⟩ := isdigit_not_special d h1
  have hrun := atoi_digits_run rest hrest (d :: ds) 0 hd
  have e1 : (d :: ds ++ rest).dropWhile isspace = d :: ds ++ rest := by
    simp only [List.cons_append, List.dropWhile, hs, List.append_eq]
  have e2 : ((d :: ds ++ rest).head? == some '-') = false := by
    simp only [List.cons_append, List.head?_cons, beq_eq_false_iff_ne, ne_eq, Option.some.injEq]
    exact hm
  have e3 : ((d :: ds ++ rest).head? == some '+') = false := by
    simp only [List.cons_append, List.head?_cons, beq_eq_false_iff_ne, ne_eq, Option.some.injEq]
    exact hp
  unfold atoi
  simp only [e1, e2, e3, Bool.or_self, Bool.false_eq_true, if_false, hrun, zero_mul, zero_add]
  have h0 : (0 : Int) ≤ (decimal_value (d :: ds) : Int) := Int.ofNat_nonneg _
  have h2 : (decimal_value (d :: ds) : Int) ≤ 2147483647 := by exact_mod_cast hfit
  rw [if_neg (by omega), if_neg (by omega)]

/-- With no digit at the start of the text (after white space and sign), `atoi` returns 0. -/
theorem atoi_no_digits (s : List Char) (hs : ∀ c, s.head? = some c → isspace c = false)
    (hsign : s.head? ≠ some '-' ∧ s.head? ≠ some '+')
    (hd : ∀ c, s.head? = some c → isdigit c = false) : atoi s = 0 := by
  have e1 : s.dropWhile isspace = s := by
    cases s with
    | nil => rfl
    | cons c cs => simp only [List.dropWhile, hs c rfl]
  have e2 : (s.head? == some '-') = false := by
    simp only [beq_eq_false_iff_ne, ne_eq]; exact hsign.1
  have e3 : (s.head? == some '+') = false := by
    simp only [beq_eq_false_iff_ne, ne_eq]; exact hsign.2
  have e4 : atoi_digits s 0 = 0 := by
    cases s with
    | nil => rfl
    | cons c cs => simp only [atoi_digits, hd c rfl, Bool.false_eq_true, if_false]
  unfold atoi
  simp only [e1, e2, e3, Bool.or_self, Bool.false_eq_true, if_false, e4]
  norm_num

theorem key_pattern_length (key : List Char) : (key_pattern key).length = key.length + 3 := by
  have e1 : "\"".toList.length = 1 := by decide
  have e2 : "\":".toList.length = 2 := by decide
  simp only [key_pattern, List.length_append, e1, e2]
  omega

/-- What `parse_json_int` computes once the first occurrence of the pattern is located:
the text after it, spaces skipped, goes through the `null` test and `atoi`. -/
theorem parse_json_int_found (buf key pre rest : List Char) (hkey : key.length ≤ 60)
    (hbuf : cstr buf = pre ++ key_pattern key ++ rest)
    (hfirst : ¬ key_pattern key <:+: pre ++ (key_pattern key).dropLast) :
    parse_json_int buf key =
      if strncmp_eq (rest.dropWhile (fun c => c == ' ')) "null".toList 4 then -1
      else atoi (rest.dropWhile (fun c => c == ' ')) := by
  have hs : (snprintf 64 ("\"".toList ++ key ++ "\":".toList)).1 = key_pattern key := by
    have := key_pattern_length key
    rw [snprintf_fit 64 _ (by unfold key_pattern at this; omega)]
    rfl
  unfold parse_json_int
  simp only [hs, hbuf, strstr_first (key_pattern key) rest pre hfirst, List.drop_left]

theorem parse_json_int_absent (buf key : List Char) (hkey : key.length ≤ 60)
    (h : ¬ key_pattern key <:+: cstr buf) : parse_json_int buf key = -1 := by
  have hs : (snprintf 64 ("\"".toList ++ key ++ "\":".toList)).1 = key_pattern key := by
    have := key_pattern_length key
    rw [snprintf_fit 64 _ (by unfold key_pattern at this; omega)]
    rfl
  unfold parse_json_int
  simp only [hs, (strstr_eq_none_iff (key_pattern key) (cstr buf)).mpr h]

theorem dropWhile_spaces (n : Nat) (t : List Char)
    (ht : ∀ c, t.head? = some c → c ≠ ' ') :
    (List.replicate n ' ' ++ t).dropWhile (fun c => c == ' ') = t := by
  rw [List.dropWhile_append_of_pos]
  · cases t with
    | nil => rfl
    | cons c cs =>
      have hc : (c == ' ') = false := by simpa using ht c rfl
      simp only [List.dropWhile, hc]
  · intro a ha
    rw [List.eq_of_mem_replicate ha]
    rfl

theorem strncmp_null (rest : List Char) :
    strncmp_eq ("null".toList ++ rest) "null".toList 4 = true := by
  have e : ("null".toList ++ rest).take 4 = "null".toList := List.take_left' (by decide)
  simp only [strncmp_eq, e]
  decide

theorem strncmp_null_digit (d : Char) (t : List Char) (h : d ≠ 'n') :
    strncmp_eq (d :: t) "null".toList 4 = false := by
  have e : "null".toList.take 4 = ['n', 'u', 'l', 'l'] := by decide
  simp [strncmp_eq, e, h]

theorem cstr_cut (a t : List Char) : cstr (a ++ NUL :: t) = cstr a := by
  unfold cstr
  rw [List.takeWhile_append]
  split_ifs with h
  · have e : List.takeWhile (fun c => c != NUL) a = a :=
      (List.takeWhile_prefix _).eq_of_length h
    rw [e]
    simp [List.takeWhile]
  · rfl

theorem cstr_of_terminated (buf : List Char) (n : Nat) (h : buf.get? n = some NUL) :
    cstr buf = cstr (buf.take n) := by
  have hn : n < buf.length := by
    by_contra hc
    rw [List.get?_eq_none.mpr (by omega)] at h
    exact absurd h (by simp)
  have e : buf = buf.take n ++ NUL :: buf.drop (n + 1) := by
    have hg : buf.get ⟨n, hn⟩ = NUL := by
      rw [List.get?_eq_get hn] at h
      exact Option.some.inj h
    conv_lhs => rw [← List.take_append_drop n buf]
    rw [← hg, List.get_eq_getElem, List.drop_eq_getElem_cons hn]
  conv_lhs => rw [e]
  exact cstr_cut _ _

theorem cstr_initial_segment (a : List Char) : cstr a <+: a := List.takeWhile_prefix _

theorem parse_json_int_cstr (buf1 buf2 key : List Char) (h : cstr buf1 = cstr buf2) :
    parse_json_int buf1 key = parse_json_int buf2 key := by
  unfold parse_json_int
  rw [h]

/-! ## Response buffer lemmas -/

theorem http_event_handler_step (d buf : List Char) (l : Nat) (hl : l ≤ 1023) :
    http_event_handler false d (buf, (l : Int)) =
      some (memcpy buf l d (min d.length (1023 - l)),
            ((l + min d.length (1023 - l) : Nat) : Int)) := by
  unfold http_event_handler
  simp only [Bool.not_false, if_true, HTTP_BUF_SIZE]
  by_cases hc : (l : Int) + (d.length : Int) ≥ 1024 - 1
  · have hm : min d.length (1023 - l) = 1023 - l := by omega
    rw [if_pos hc, if_neg (by omega), hm]
    have e1 : ((1024 : Int) - 1 - (l : Int)).toNat = 1023 - l := by omega
    have e2 : (l : Int) + (1024 - 1 - (l : Int)) = ((l + (1023 - l) : Nat) : Int) := by omega
    rw [e1, e2, Int.toNat_ofNat]
  · have hm : min d.length (1023 - l) = d.length := by omega
    rw [if_neg hc, if_neg (by omega), hm]
    simp only [Int.toNat_ofNat, Nat.cast_add]

theorem memcpy_length (buf src : List Char) (off n : Nat) (hn : n ≤ src.length)
    (hb : off + n ≤ buf.length) : (memcpy buf off src n).length = buf.length := by
  simp only [memcpy, List.length_append, List.length_take, List.length_drop]
  omega

theorem memcpy_take (buf src : List Char) (off n : Nat) (hn : n ≤ src.length)
    (hb : off + n ≤ buf.length) :
    (memcpy buf off src n).take (off + n) = buf.take off ++ src.take n := by
  unfold memcpy
  rw [List.take_append_of_le_length (by
    simp only [List.length_append, List.length_take]; omega)]
  exact List.take_of_length_le (by
    simp only [List.length_append, List.length_take]; omega)

/-- Unchunked data events append to the response buffer until 1023 bytes are stored: after
the events the length is `min 1023 (l + total)` and the stored bytes are the old ones
followed by the first bytes of the concatenated event data. -/
theorem deliver_unchunked (ds : List (List Char)) :
    ∀ (buf : List Char) (l : Nat), l ≤ 1023 → buf.length = 1024 →
      ∃ buf1, deliver false ds (buf, (l : Int)) =
          some (buf1, ((min 1023 (l + ds.flatten.length) : Nat) : Int)) ∧
        buf1.length = 1024 ∧
        buf1.take (min 1023 (l + ds.flatten.length)) =
          buf.take l ++ ds.flatten.take (min 1023 (l + ds.flatten.length) - l) := by
  induction ds with
  | nil =>
    intro buf l hl hb
    refine ⟨buf, ?_, hb, ?_⟩
    · simp only [deliver, List.flatten_nil, List.length_nil, Nat.add_zero, Nat.min_eq_right hl]
    · simp only [List.flatten_nil, List.length_nil, Nat.add_zero, Nat.min_eq_right hl,
        Nat.sub_self, List.take_nil, List.append_nil]
  | cons d ds ih =>
    intro buf l hl hb
    have hc : min d.length (1023 - l) ≤ d.length := Nat.min_le_left _ _
    have hfit : l + min d.length (1023 - l) ≤ buf.length := by omega
    obtain ⟨buf2, e1, e2, e3⟩ := ih (memcpy buf l d (min d.length (1023 - l)))
      (l + min d.length (1023 - l)) (by omega) (by rw [memcpy_length _ _ _ _ hc hfit, hb])
    have hm : min 1023 (l + min d.length (1023 - l) + ds.flatten.length) =
        min 1023 (l + (d.length + ds.flatten.length)) := by
      omega
    simp only [List.flatten_cons, List.length_append]
    rw [← hm]
    refine ⟨buf2, ?_, e2, ?_⟩
    · simp only [deliver, http_event_handler_step d buf l hl, e1]
    · rw [e3, memcpy_take _ _ _ _ hc hfit, List.append_assoc]
      congr 1
      by_cases hd : l + d.length ≤ 1023
      · have h1 : min d.length (1023 - l) = d.length := by omega
        rw [h1, List.take_length, List.take_append_eq_append_take,
          List.take_of_length_le (by omega : d.length ≤
            min 1023 (l + d.length + ds.flatten.length) - l)]
        congr 2
        omega
      · have h1 : min d.length (1023 - l) = 1023 - l := by omega
        have h2 : min 1023 (l + (1023 - l) + ds.flatten.length) = 1023 := by omega
        rw [h1, h2, List.take_append_eq_append_take]
        have h3 : 1023 - (l + (1023 - l)) = 0 := by omega
        have h4 : 1023 - l - d.length = 0 := by omega
        rw [h3, h4, List.take_zero]

/-- A response of at most 1023 bytes without NUL, delivered unchunked, is stored whole:
after the terminator is written the buffer holds exactly the body as its C string. -/
theorem deliver_body (ds : List (List Char)) (buf : List Char) (hb : buf.length = 1024)
    (hlen : ds.flatten.length ≤ 1023) (hnul : NUL ∉ ds.flatten) :
    ∃ buf1, deliver false ds (buf, 0) = some (buf1, (ds.flatten.length : Int)) ∧
      cstr (buf1.set (ds.flatten.length : Int).toNat NUL) = ds.flatten := by
  obtain ⟨buf1, e1, e2, e3⟩ := deliver_unchunked ds buf 0 (by omega) hb
  have hm : min 1023 (0 + ds.flatten.length) = ds.flatten.length := by omega
  rw [hm] at e1 e3
  refine ⟨buf1, by simpa using e1, ?_⟩
  simp only [List.take_zero, List.nil_append, Nat.sub_zero, List.take_length] at e3
  have hset : buf1.set ds.flatten.length NUL =
      ds.flatten ++ NUL :: buf1.drop (ds.flatten.length + 1) := by
    rw [List.set_eq_take_append_cons_drop, if_pos (by omega), e3]
  rw [Int.toNat_ofNat, hset]
  exact cstr_terminated _ _ hnul

/-- The scan on a first occurrence followed by spaces and `null`. -/
theorem parse_json_int_null (buf key pre rest : List Char) (n : Nat) (hkey : key.length ≤ 60)
    (hbuf : cstr buf =
      pre ++ key_pattern key ++ (List.replicate n ' ' ++ ("null".toList ++ rest)))
    (hfirst : ¬ key_pattern key <:+: pre ++ (key_pattern key).dropLast) :
    parse_json_int buf key = -1 := by
  rw [parse_json_int_found buf key pre _ hkey hbuf hfirst,
    dropWhile_spaces n _ (by intro c hc; cases hc; decide), strncmp_null, if_pos rfl]

/-- The scan on a first occurrence followed by spaces and a run of digits. -/
theorem parse_json_int_number (buf key pre ds rest : List Char) (n : Nat)
    (hkey : key.length ≤ 60)
    (hbuf : cstr buf = pre ++ key_pattern key ++ (List.replicate n ' ' ++ (ds ++ rest)))
    (hfirst : ¬ key_pattern key <:+: pre ++ (key_pattern key).dropLast)
    (hne : ds ≠ []) (hd : ∀ c ∈ ds, isdigit c = true)
    (hrest : ∀ c, rest.head? = some c → isdigit c = false)
    (hfit : decimal_value ds ≤ 2147483647) :
    parse_json_int buf key = (decimal_value ds : Int) := by
  obtain ⟨d, ds1, rfl⟩ := List.exists_cons_of_ne_nil hne
  have h1 : isdigit d = true := hd d (List.mem_cons_self _ _)
  obtain ⟨-, -, -, hsp, hn⟩ := isdigit_not_special d h1
  rw [parse_json_int_found buf key pre _ hkey hbuf hfirst,
    dropWhile_spaces n _ (by intro c hc; cases hc; exact hsp)]
  simp only [List.cons_append, strncmp_null_digit d _ hn, Bool.false_eq_true, if_false]
  exact atoi_of_digits d ds1 rest hd hrest hfit

/-! ## The guard and the UI frame -/

theorem ha_set_light_ui (entity_id : List Char) (on_ : Bool) (b k : Int) (o : Outcome)
    (w w1 : World) (h : ha_set_light_with_params entity_id on_ b k o w = some w1) :
    w1.ui = w.ui ∧ ∃ r, w1.posts = w.posts ++ [r] := by
  unfold ha_set_light_with_params at h
  cases on_
  · obtain ⟨w2, e1, e2, e3⟩ := mqtt_publish_command_effect entity_id "OFF".toList o w
    simp only [Bool.not_false, if_true, e1, Option.some.injEq] at h
    subst h
    exact ⟨e3, _, e2⟩
  · simp only [Bool.not_true, Bool.false_eq_true, if_false, Option.bind_eq_some] at h
    obtain ⟨b3, -, h3⟩ := h
    obtain ⟨w2, e1, e2, e3⟩ := ha_post_effect "/api/services/light/turn_on".toList b3.1 o w
    rw [e1, Option.some.injEq] at h3
    subst h3
    exact ⟨e3, _, e2⟩

/-- No callback writes the guard. -/
theorem callback_guard (cb : Callback) (o : Outcome) (w w1 : World)
    (h : cb.run o w = some w1) :
    w1.ui.s_updating_from_poll = w.ui.s_updating_from_poll := by
  cases cb
  · simp only [Callback.run, guld_switch_cb] at h
    cases hs : w.ui.sw_guld with
    | none => simp [hs] at h
    | some is_on =>
      obtain ⟨w2, e1, -, e3⟩ := mqtt_publish_command_effect "light.guldlampan".toList
        (if is_on then "ON".toList else "OFF".toList) o w
      simp only [hs, e1, Option.some.injEq] at h
      subst h; rw [e3]
  · simp only [Callback.run, video_switch_cb] at h
    split at h
    · rw [(ha_set_light_ui _ _ _ _ _ _ _ h).1]
    · exact absurd h (by simp)
  · simp only [Callback.run, bright_slider_cb] at h
    split_ifs at h with hg
    · simp only [Option.some.injEq] at h; subst h; rfl
    · split at h
      · rw [(ha_set_light_ui _ _ _ _ _ _ _ h).1]
      · exact absurd h (by simp)
  · simp only [Callback.run, ct_slider_cb] at h
    split_ifs at h with hg
    · simp only [Option.some.injEq] at h; subst h; rfl
    · split at h
      · rw [(ha_set_light_ui _ _ _ _ _ _ _ h).1]
      · exact absurd h (by simp)
  · simp only [Callback.run, iris_switch_cb] at h
    split at h
    · rw [(ha_set_light_ui _ _ _ _ _ _ _ h).1]
    · exact absurd h (by simp)
  · simp only [Callback.run, iris_bright_slider_cb] at h
    split_ifs at h with hg
    · simp only [Option.some.injEq] at h; subst h; rfl
    · split at h
      · rw [(ha_set_light_ui _ _ _ _ _ _ _ h).1]
      · exact absurd h (by simp)
  · simp only [Callback.run, solskydd_slider_cb] at h
    split_ifs at h with hg
    · simp only [Option.some.injEq] at h; subst h; rfl
    · split at h
      · obtain ⟨w2, e1, -, e3⟩ := ha_cover_set_position_effect _ _ o _
        rw [e1, Option.some.injEq] at h
        subst h; rw [e3]
      · exact absurd h (by simp)

/-- In a built UI with the guard down every callback returns, having sent one request. -/
theorem callback_runs (cb : Callback) (o : Outcome) (w : World) (hb : Built w.ui)
    (hg : w.ui.s_updating_from_poll = false) :
    ∃ w1 r, cb.run o w = some w1 ∧ w1.posts = w.posts ++ [r] := by
  obtain ⟨h1, h2, h3, h4, h5, h6, h7, h8, h9, h10, h11⟩ := hb
  obtain ⟨g, hg1⟩ := Option.isSome_iff_exists.mp h1
  obtain ⟨v, hv⟩ := Option.isSome_iff_exists.mp h2
  obtain ⟨i, hi⟩ := Option.isSome_iff_exists.mp h3
  obtain ⟨lb, hlb⟩ := Option.isSome_iff_exists.mp h4
  obtain ⟨lc, hlc⟩ := Option.isSome_iff_exists.mp h5
  obtain ⟨li, hli⟩ := Option.isSome_iff_exists.mp h6
  obtain ⟨ls, hls⟩ := Option.isSome_iff_exists.mp h7
  obtain ⟨sb, hsb, -, -, sb0, sb1⟩ := slider_ok_some h8
  obtain ⟨sc, hsc, -, -, sc0, sc1⟩ := slider_ok_some h9
  obtain ⟨si, hsi, -, -, si0, si1⟩ := slider_ok_some h10
  obtain ⟨ss, hss, -, -, ss0, ss1⟩ := slider_ok_some h11
  cases cb
  · obtain ⟨w1, e1, e2, -⟩ := guld_switch_cb_effect o w g hg1
    exact ⟨w1, _, e1, e2⟩
  · obtain ⟨w1, e1, e2, -⟩ := video_switch_cb_effect o w v sb sc hv hsb hsc sb1 sc0 sc1
    exact ⟨w1, _, e1, e2⟩
  · obtain ⟨w1, e1, e2, -⟩ := bright_slider_cb_effect o w v sb sc lb hg hv hsb hsc hlb sb1 sc0 sc1
    exact ⟨w1, _, e1, e2⟩
  · obtain ⟨w1, e1, e2, -⟩ := ct_slider_cb_effect o w v sb sc lc hg hv hsb hsc hlc sb1 sc0 sc1
    exact ⟨w1, _, e1, e2⟩
  · obtain ⟨w1, e1, e2, -⟩ := iris_switch_cb_effect o w i si hi hsi si1
    exact ⟨w1, _, e1, e2⟩
  · obtain ⟨w1, e1, e2, -⟩ := iris_bright_slider_cb_effect o w i si li hg hi hsi hli si1
    exact ⟨w1, _, e1, e2⟩
  · obtain ⟨w1, e1, e2, -⟩ := solskydd_slider_cb_effect o w ss ls hg hss hls ss0 ss1
    exact ⟨w1, _, e1, e2⟩

theorem built_ui_init : Built (ui_init Ui.boot) := by
  simp [Built, ui_init, Ui.boot, slider_ok, lv_slider_set_value, lv_slider_set_range,
    lv_slider_create]

theorem poll_light_posts (entity_id : List Char) (o : Outcome) (lock : Bool) (w : World) :
    ∃ w1, poll_light entity_id o lock w = some w1 ∧ w1.posts = w.posts := by
  obtain ⟨b, l, hd, -, -⟩ := deliver_some o.chunked o.data w.s_response_buf 0 le_rfl (by norm_num)
  unfold poll_light
  simp only [hd]
  split_ifs <;> exact ⟨_, rfl, rfl⟩

theorem poll_cover_posts (entity_id : List Char) (o : Outcome) (lock : Bool) (w : World) :
    ∃ w1, poll_cover entity_id o lock w = some w1 ∧ w1.posts = w.posts := by
  obtain ⟨b, l, hd, -, -⟩ := deliver_some o.chunked o.data w.s_response_buf 0 le_rfl (by norm_num)
  unfold poll_cover
  simp only [hd]
  split_ifs <;> exact ⟨_, rfl, rfl⟩

theorem ui_update_light_state_guard (entity_id : List Char) (state : Bool) (u : Ui) :
    (ui_update_light_state entity_id state u).s_updating_from_poll = u.s_updating_from_poll := by
  unfold ui_update_light_state
  split_ifs <;> first | rfl | (split <;> rfl)

theorem ui_update_cover_state_guard (entity_id : List Char) (position : Int) (u : Ui)
    (h : u.s_updating_from_poll = false) :
    (ui_update_cover_state entity_id position u).s_updating_from_poll = false := by
  unfold ui_update_cover_state
  split_ifs <;> first | exact h | rfl | (split <;> first | exact h | rfl)

theorem video_apply_brightness_absent (b : Int) (u : Ui) (hb : b < 0) :
    video_apply_brightness b u = u := by
  unfold video_apply_brightness
  split
  · rw [if_neg (by omega)]
  · rfl

theorem video_apply_color_temp_absent (k : Int) (u : Ui) (hk : k ≤ 0) :
    video_apply_color_temp k u = u := by
  unfold video_apply_color_temp
  split
  · rw [if_neg (by omega)]
  · rfl

theorem update_iris_params_absent (b : Int) (u : Ui) (hb : b < 0) :
    update_iris_params b u = u := by
  unfold update_iris_params
  split
  · rw [if_neg (by omega)]
  · rfl

/-- The brightness statement touches only `slider_bright` and `label_bright`. -/
theorem video_apply_brightness_frame (b : Int) (u : Ui) :
    (video_apply_brightness b u).slider_ct = u.slider_ct ∧
    (video_apply_brightness b u).label_ct = u.label_ct ∧
    (video_apply_brightness b u).slider_iris_bright = u.slider_iris_bright ∧
    (video_apply_brightness b u).label_iris_bright = u.label_iris_bright ∧
    (video_apply_brightness b u).slider_solskydd = u.slider_solskydd ∧
    (video_apply_brightness b u).label_solskydd = u.label_solskydd ∧
    (video_apply_brightness b u).sw_guld = u.sw_guld ∧
    (video_apply_brightness b u).sw_video = u.sw_video ∧
    (video_apply_brightness b u).sw_iris = u.sw_iris ∧
    (video_apply_brightness b u).s_updating_from_poll = u.s_updating_from_poll := by
  unfold video_apply_brightness
  split
  · split_ifs <;> exact ⟨rfl, rfl, rfl, rfl, rfl, rfl, rfl, rfl, rfl, rfl⟩
  · exact ⟨rfl, rfl, rfl, rfl, rfl, rfl, rfl, rfl, rfl, rfl⟩

/-- The colour temperature statement touches only `slider_ct` and `label_ct`. -/
theorem video_apply_color_temp_frame (k : Int) (u : Ui) :
    (video_apply_color_temp k u).slider_bright = u.slider_bright ∧
    (video_apply_color_temp k u).label_bright = u.label_bright ∧
    (video_apply_color_temp k u).slider_iris_bright = u.slider_iris_bright ∧
    (video_apply_color_temp k u).label_iris_bright = u.label_iris_bright ∧
    (video_apply_color_temp k u).slider_solskydd = u.slider_solskydd ∧
    (video_apply_color_temp k u).label_solskydd = u.label_solskydd ∧
    (video_apply_color_temp k u).sw_guld = u.sw_guld ∧
    (video_apply_color_temp k u).sw_video = u.sw_video ∧
    (video_apply_color_temp k u).sw_iris = u.sw_iris ∧
    (video_apply_color_temp k u).s_updating_from_poll = u.s_updating_from_poll := by
  unfold video_apply_color_temp
  split
  · split_ifs <;> exact ⟨rfl, rfl, rfl, rfl, rfl, rfl, rfl, rfl, rfl, rfl⟩
  · exact ⟨rfl, rfl, rfl, rfl, rfl, rfl, rfl, rfl, rfl, rfl⟩

/-- The iris branch touches only `slider_iris_bright` and `label_iris_bright`. -/
theorem update_iris_params_frame (b : Int) (u : Ui) :
    (update_iris_params b u).slider_bright = u.slider_bright ∧
    (update_iris_params b u).label_bright = u.label_bright ∧
    (update_iris_params b u).slider_ct = u.slider_ct ∧
    (update_iris_params b u).label_ct = u.label_ct ∧
    (update_iris_params b u).slider_solskydd = u.slider_solskydd ∧
    (update_iris_params b u).label_solskydd = u.label_solskydd ∧
    (update_iris_params b u).sw_guld = u.sw_guld ∧
    (update_iris_params b u).sw_video = u.sw_video ∧
    (update_iris_params b u).sw_iris = u.sw_iris ∧
    (update_iris_params b u).s_updating_from_poll = u.s_updating_from_poll := by
  unfold update_iris_params
  split
  · split_ifs <;> exact ⟨rfl, rfl, rfl, rfl, rfl, rfl, rfl, rfl, rfl, rfl⟩
  · exact ⟨rfl, rfl, rfl, rfl, rfl, rfl, rfl, rfl, rfl, rfl⟩

/-! ## Poll lemmas -/

theorem strstr_at_start (needle : List Char) :
    ∀ hay : List Char, needle <+: hay → strstr hay needle = some hay := by
  intro hay h
  cases hay with
  | nil =>
    have e : needle = [] := List.prefix_nil.mp h
    simp [strstr, e]
  | cons c cs =>
    unfold strstr
    rw [if_pos (List.isPrefixOf_iff_prefix.mpr h)]

/-- When `needle` occurs somewhere in the string, `strstr` succeeds; its result starts with
`needle` and reaches at least as far back as the given occurrence. -/
theorem strstr_of_occurrence (needle r : List Char) :
    ∀ a : List Char, ∃ sk, strstr (a ++ needle ++ r) needle = some sk ∧
      needle <+: sk ∧ (needle ++ r) <:+ sk := by
  intro a
  induction a with
  | nil =>
    refine ⟨needle ++ r, ?_, List.prefix_append _ _, List.suffix_refl _⟩
    simpa using strstr_at_start needle (needle ++ r) (List.prefix_append _ _)
  | cons x a ih =>
    by_cases hp : needle <+: x :: a ++ needle ++ r
    · refine ⟨x :: a ++ needle ++ r, strstr_at_start needle _ hp, hp, ?_⟩
      rw [List.append_assoc]
      exact List.suffix_append _ _
    · obtain ⟨sk, e1, e2, e3⟩ := ih
      refine ⟨sk, ?_, e2, e3⟩
      have hnp : ¬ needle.isPrefixOf (x :: (a ++ needle ++ r)) = true :=
        fun h => hp (List.isPrefixOf_iff_prefix.mp h)
      simp only [List.cons_append]
      unfold strstr
      rw [if_neg hnp]
      exact e1

/-- A response that contains `"state":` and, somewhere after it, a double quote passes the
two tests at the head of `poll_light`. -/
theorem state_scan_succeeds (a c d : List Char) :
    ∃ sk val, strstr (a ++ "\"state\":".toList ++ (c ++ '"' :: d)) "\"state\":".toList = some sk ∧
      strchr (sk.drop 8) '"' = some val := by
  obtain ⟨sk, e1, e2, e3⟩ := strstr_of_occurrence "\"state\":".toList (c ++ '"' :: d) a
  obtain ⟨t, rfl⟩ := e2
  have hl : "\"state\":".toList.length = 8 := by decide
  have hdrop : ("\"state\":".toList ++ t).drop 8 = t := List.drop_left' hl
  have hr : (c ++ '"' :: d) <:+ t := by
    have h1 : (c ++ '"' :: d) <:+ "\"state\":".toList ++ t :=
      (List.suffix_append _ _).trans e3
    have h2 : t <:+ "\"state\":".toList ++ t := List.suffix_append _ _
    have h3 := e3.length_le
    have h4 : ("\"state\":".toList ++ (c ++ '"' :: d)).length = 8 + (c ++ '"' :: d).length := by
      rw [List.length_append, hl]
    have h5 : ("\"state\":".toList ++ t).length = 8 + t.length := by
      rw [List.length_append, hl]
    exact List.suffix_of_suffix_length_le h1 h2 (by omega)
  have hm : '"' ∈ t := hr.subset (by simp)
  obtain ⟨x, y, -, -, e4⟩ := strchr_of_mem '"' t hm
  exact ⟨_, _, e1, by rw [hdrop, e4]⟩

theorem poll_light_apply_scanned (entity_id buf : List Char) (u : Ui) (sk val : List Char)
    (h1 : strstr (cstr buf) "\"state\":".toList = some sk)
    (h2 : strchr (sk.drop 8) '"' = some val) :
    ∃ is_on, poll_light_apply entity_id true buf u =
      ui_update_light_params entity_id (parse_json_int buf "brightness".toList)
        (parse_json_int buf "color_temp_kelvin".toList)
        (ui_update_light_state entity_id is_on u) := by
  unfold poll_light_apply poll_light_is_on
  simp only [h1, h2, if_true]
  exact ⟨_, rfl⟩

/-- Function `ui_update_light_state` writes switches only. -/
theorem ui_update_light_state_frame (entity_id : List Char) (state : Bool) (u : Ui) :
    (ui_update_light_state entity_id state u).slider_bright = u.slider_bright ∧
    (ui_update_light_state entity_id state u).label_bright = u.label_bright ∧
    (ui_update_light_state entity_id state u).slider_ct = u.slider_ct ∧
    (ui_update_light_state entity_id state u).label_ct = u.label_ct ∧
    (ui_update_light_state entity_id state u).slider_iris_bright = u.slider_iris_bright ∧
    (ui_update_light_state entity_id state u).label_iris_bright = u.label_iris_bright ∧
    (ui_update_light_state entity_id state u).slider_solskydd = u.slider_solskydd ∧
    (ui_update_light_state entity_id state u).label_solskydd = u.label_solskydd := by
  unfold ui_update_light_state
  split_ifs <;> first
    | exact ⟨rfl, rfl, rfl, rfl, rfl, rfl, rfl, rfl⟩
    | (split <;> exact ⟨rfl, rfl, rfl, rfl, rfl, rfl, rfl, rfl⟩)

theorem brightness_to_percent_eq (b : Int) (h0 : 0 ≤ b) (h1 : b ≤ 255) :
    brightness_to_percent b = b * 100 / 255 := by
  unfold brightness_to_percent
  rw [wrap32_id _ (by omega) (by omega), Int.tdiv_eq_ediv (by omega) (by norm_num)]

/-- A present brightness reaches the video slider and its label. -/
theorem ui_update_light_params_video_brightness (u : Ui) (sl : Slider) (t : List Char)
    (b k : Int) (h1 : u.slider_bright = some sl) (h2 : u.label_bright = some t)
    (hb : 0 ≤ b) :
    (ui_update_light_params "light.videolampor".toList b k u).slider_bright =
      some (lv_slider_set_value sl b) ∧
    (ui_update_light_params "light.videolampor".toList b k u).label_bright =
      some (fmt_d (brightness_to_percent b) ++ "%".toList) := by
  have f := video_apply_color_temp_frame k
    (video_apply_brightness b { u with s_updating_from_poll := true })
  have g : (video_apply_brightness b { u with s_updating_from_poll := true }).slider_bright =
        some (lv_slider_set_value sl b) ∧
      (video_apply_brightness b { u with s_updating_from_poll := true }).label_bright =
        some (fmt_d (brightness_to_percent b) ++ "%".toList) := by
    unfold video_apply_brightness
    simp only [h1, h2, ge_iff_le, hb, if_true, and_self]
  simp only [ui_update_light_params, if_true, update_video_params]
  exact ⟨f.1.trans g.1, f.2.1.trans g.2⟩

/-! ## Value codec lemmas -/

/-- The reconciler's dial value is the linear map clamped to `[0, 100]`. -/
theorem kelvin_to_dial_linear (k : Int) :
    kelvin_to_dial k = max 0 (min 100 ((k - 2900) * 100 / (7000 - 2900))) := by
  unfold kelvin_to_dial
  by_cases hk : 2900 ≤ k
  · rw [Int.tdiv_eq_ediv (by omega) (by norm_num)]
    simp only []
    split_ifs <;> omega
  · have e : ((k - 2900) * 100).tdiv (7000 - 2900) = -(((2900 - k) * 100) / (7000 - 2900)) := by
      have e1 : (k - 2900) * 100 = -((2900 - k) * 100) := by ring
      rw [e1, Int.neg_tdiv, Int.tdiv_eq_ediv (by omega) (by norm_num)]
    rw [e]
    simp only []
    split_ifs <;> omega

/-- Whatever `int` comes in, the two clamping statements leave a value in `0..100`. -/
theorem kelvin_to_dial_range (k : Int) : 0 ≤ kelvin_to_dial k ∧ kelvin_to_dial k ≤ 100 := by
  unfold kelvin_to_dial
  simp only []
  split_ifs <;> omega

/-- A present colour temperature reaches the video dial and its label. -/
theorem ui_update_light_params_video_color_temp (u : Ui) (sl : Slider) (t : List Char)
    (b k : Int) (h1 : u.slider_ct = some sl) (h2 : u.label_ct = some t) (hk : 0 < k) :
    (ui_update_light_params "light.videolampor".toList b k u).slider_ct =
      some (lv_slider_set_value sl (kelvin_to_dial k)) ∧
    (ui_update_light_params "light.videolampor".toList b k u).label_ct =
      some (fmt_d k ++ "K".toList) := by
  have f := video_apply_brightness_frame b { u with s_updating_from_poll := true }
  have g : (video_apply_color_temp k
        (video_apply_brightness b { u with s_updating_from_poll := true })).slider_ct =
        some (lv_slider_set_value sl (kelvin_to_dial k)) ∧
      (video_apply_color_temp k
        (video_apply_brightness b { u with s_updating_from_poll := true })).label_ct =
        some (fmt_d k ++ "K".toList) := by
    have f1 : (video_apply_brightness b { u with s_updating_from_poll := true }).slider_ct =
        some sl := f.1.trans h1
    have f2 : (video_apply_brightness b { u with s_updating_from_poll := true }).label_ct =
        some t := f.2.1.trans h2
    unfold video_apply_color_temp
    simp only [f1, f2, gt_iff_lt, hk, if_true, and_self]
  simp only [ui_update_light_params, if_true, update_video_params]
  exact g

/-- A present brightness reaches the iris slider and its label. -/
theorem ui_update_light_params_iris_brightness (u : Ui) (sl : Slider) (t : List Char)
    (b k : Int) (h1 : u.slider_iris_bright = some sl) (h2 : u.label_iris_bright = some t)
    (hb : 0 ≤ b) :
    (ui_update_light_params "light.iris_golvlampa".toList b k u).slider_iris_bright =
      some (lv_slider_set_value sl b) ∧
    (ui_update_light_params "light.iris_golvlampa".toList b k u).label_iris_bright =
      some (fmt_d (brightness_to_percent b) ++ "%".toList) := by
  have hne : ¬ ("light.iris_golvlampa".toList = "light.videolampor".toList) := by decide
  have g : (update_iris_params b { u with s_updating_from_poll := true }).slider_iris_bright =
        some (lv_slider_set_value sl b) ∧
      (update_iris_params b { u with s_updating_from_poll := true }).label_iris_bright =
        some (fmt_d (brightness_to_percent b) ++ "%".toList) := by
    unfold update_iris_params
    simp only [h1, h2, ge_iff_le, hb, if_true, and_self]
  simp only [ui_update_light_params, if_neg hne, if_true]
  exact g

/-! ## Response buffer invariants -/

theorem memcpy_drop (buf src : List Char) (off n m : Nat) (hn : n ≤ src.length)
    (hb : off + n ≤ buf.length) (hm : off + n ≤ m) :
    (memcpy buf off src n).drop m = buf.drop m := by
  unfold memcpy
  have hl : (buf.take off ++ src.take n).length = off + n := by
    simp only [List.length_append, List.length_take]; omega
  rw [List.drop_append_eq_append_drop, hl, List.drop_of_length_le (by omega), List.nil_append,
    List.drop_drop]
  congr 1
  omega

/-- Unchunked data events never write at or above the final length: the bytes of the array
from that index on, the last byte at index 1023 among them, are the old ones. -/
theorem deliver_unchunked_rest (ds : List (List Char)) :
    ∀ (buf : List Char) (l : Nat), l ≤ 1023 → buf.length = 1024 →
      ∃ buf1, deliver false ds (buf, (l : Int)) =
          some (buf1, ((min 1023 (l + ds.flatten.length) : Nat) : Int)) ∧
        buf1.drop (min 1023 (l + ds.flatten.length)) =
          buf.drop (min 1023 (l + ds.flatten.length)) := by
  induction ds with
  | nil =>
    intro buf l hl hb
    refine ⟨buf, ?_, rfl⟩
    simp only [deliver, List.flatten_nil, List.length_nil, Nat.add_zero, Nat.min_eq_right hl]
  | cons d ds ih =>
    intro buf l hl hb
    have hc : min d.length (1023 - l) ≤ d.length := Nat.min_le_left _ _
    have hfit : l + min d.length (1023 - l) ≤ buf.length := by omega
    obtain ⟨buf2, e1, e2⟩ := ih (memcpy buf l d (min d.length (1023 - l)))
      (l + min d.length (1023 - l)) (by omega) (by rw [memcpy_length _ _ _ _ hc hfit, hb])
    have hm : min 1023 (l + min d.length (1023 - l) + ds.flatten.length) =
        min 1023 (l + (d.length + ds.flatten.length)) := by
      omega
    simp only [List.flatten_cons, List.length_append]
    rw [← hm]
    refine ⟨buf2, ?_, ?_⟩
    · simp only [deliver, http_event_handler_step d buf l hl, e1]
    · rw [e2]
      exact memcpy_drop _ _ _ _ _ hc hfit (by omega)

/-- A chunked response stores nothing: every data event leaves buffer and length alone. -/
theorem deliver_chunked (ds : List (List Char)) :
    ∀ st : List Char × Int, deliver true ds st = some st := by
  induction ds with
  | nil => intro st; rfl
  | cons d ds ih =>
    intro st
    simp only [deliver, http_event_handler, Bool.not_true, Bool.false_eq_true, if_false, ih]

/-- Delivering a sequence of events is delivering its first part and then the rest from
the state reached: the states after each event are the states after the initial segments. -/
theorem deliver_append (chunked : Bool) (ds1 ds2 : List (List Char)) :
    ∀ st : List Char × Int,
      deliver chunked (ds1 ++ ds2) st =
        (deliver chunked ds1 st).bind (deliver chunked ds2) := by
  induction ds1 with
  | nil => intro st; rfl
  | cons d ds ih =>
    intro st
    simp only [List.cons_append, deliver]
    cases http_event_handler chunked d st with
    | none => rfl
    | some st1 => exact ih st1

/-- The state of the response buffer after any sequence of data events, starting from
length 0 with a 1024-byte array. -/
theorem deliver_from_zero (chunked : Bool) (ds : List (List Char)) (buf : List Char)
    (hb : buf.length = 1024) :
    ∃ (buf1 : List Char) (n : Nat),
      deliver chunked ds (buf, 0) = some (buf1, (n : Int)) ∧
      n = (if chunked then 0 else min 1023 ds.flatten.length) ∧
      buf1.length = 1024 ∧
      buf1.take n = ds.flatten.take n ∧
      buf1.drop n = buf.drop n := by
  cases chunked
  · obtain ⟨buf1, e1, e2, e3⟩ := deliver_unchunked ds buf 0 (by omega) hb
    obtain ⟨buf2, f1, f2⟩ := deliver_unchunked_rest ds buf 0 (by omega) hb
    have hsame : buf2 = buf1 := by
      rw [e1] at f1
      exact (Prod.mk.inj (Option.some.inj f1)).1.symm
    subst hsame
    have hm : min 1023 (0 + ds.flatten.length) = min 1023 ds.flatten.length := by omega
    rw [hm] at e1 e3 f2
    refine ⟨buf2, min 1023 ds.flatten.length, by simpa using e1, by simp, e2, ?_, f2⟩
    simpa using e3
  · exact ⟨buf, 0, deliver_chunked ds (buf, 0), by simp, hb, by simp, rfl⟩

/-- One more data event from a state with `0 <= len <= 1023`: the handler returns, the new
length is still at most 1023, and it grew by at most the size of the event. -/
theorem http_event_handler_bounded (chunked : Bool) (d buf : List Char) (n : Nat)
    (hn : n ≤ 1023) :
    ∃ (buf2 : List Char) (n2 : Nat),
      http_event_handler chunked d (buf, (n : Int)) = some (buf2, (n2 : Int)) ∧
      n ≤ n2 ∧ n2 ≤ 1023 ∧ n2 - n ≤ d.length := by
  cases chunked
  · exact ⟨_, _, http_event_handler_step d buf n hn, by omega, by omega, by omega⟩
  · exact ⟨buf, n, by simp [http_event_handler], le_rfl, hn, by omega⟩

/-- Both pollers keep the array at 1024 bytes and the stored length within `0..1023`. -/
theorem poll_light_buffer (entity_id : List Char) (o : Outcome) (lock : Bool) (w : World)
    (hb : w.s_response_buf.length = 1024) :
    ∃ w1, poll_light entity_id o lock w = some w1 ∧ w1.s_response_buf.length = 1024 ∧
      0 ≤ w1.s_response_len ∧ w1.s_response_len ≤ 1023 := by
  obtain ⟨buf1, n, e1, e2, e3, -, -⟩ := deliver_from_zero o.chunked o.data w.s_response_buf hb
  have hn : n ≤ 1023 := by rw [e2]; split_ifs <;> omega
  unfold poll_light
  simp only [e1]
  split_ifs
  · exact ⟨_, rfl, e3, by simp, by simp only []; omega⟩
  · exact ⟨_, rfl, by simp only [List.length_set]; exact e3, by simp, by simp only []; omega⟩

theorem poll_cover_buffer (entity_id : List Char) (o : Outcome) (lock : Bool) (w : World)
    (hb : w.s_response_buf.length = 1024) :
    ∃ w1, poll_cover entity_id o lock w = some w1 ∧ w1.s_response_buf.length = 1024 ∧
      0 ≤ w1.s_response_len ∧ w1.s_response_len ≤ 1023 := by
  obtain ⟨buf1, n, e1, e2, e3, -, -⟩ := deliver_from_zero o.chunked o.data w.s_response_buf hb
  have hn : n ≤ 1023 := by rw [e2]; split_ifs <;> omega
  unfold poll_cover
  simp only [e1]
  split_ifs <;> first
    | exact ⟨_, rfl, e3, by simp, by simp only []; omega⟩
    | exact ⟨_, rfl, by simp only [List.length_set]; exact e3, by simp, by simp only []; omega⟩

/-! ## Decimal text -/

theorem digitChar_decimal (m : Nat) (h : m < 10) :
    isdigit (Nat.digitChar m) = true ∧ (Nat.digitChar m).toNat - 48 = m := by
  interval_cases m <;> decide

theorem decimal_value_snoc (ds : List Char) (c : Char) :
    decimal_value (ds ++ [c]) = decimal_value ds * 10 + (c.toNat - 48) := by
  simp only [decimal_value, List.reverse_append, List.reverse_cons, List.reverse_nil,
    List.nil_append, List.singleton_append, List.map_cons, Nat.ofDigits_cons]
  ring

/-- The digits `%d` prints for a natural number: a non-empty run of decimal digits that
denotes the number. -/
theorem toDigitsCore_decimal :
    ∀ (fuel n : Nat) (acc : List Char), n < fuel →
      ∃ ds, Nat.toDigitsCore 10 fuel n acc = ds ++ acc ∧ ds ≠ [] ∧
        (∀ c ∈ ds, isdigit c = true) ∧ decimal_value ds = n := by
  intro fuel
  induction fuel with
  | zero => intro n acc h; omega
  | succ fuel ih =>
    intro n acc h
    obtain ⟨hd1, hd2⟩ := digitChar_decimal (n % 10) (Nat.mod_lt _ (by norm_num))
    unfold Nat.toDigitsCore
    by_cases hz : n / 10 = 0
    · simp only [hz, if_true]
      refine ⟨[Nat.digitChar (n % 10)], rfl, by simp, ?_, ?_⟩
      · intro c hc
        rw [List.mem_singleton.mp hc]
        exact hd1
      · have e := decimal_value_snoc [] (Nat.digitChar (n % 10))
        simp only [List.nil_append] at e
        rw [e, hd2]
        have : decimal_value [] = 0 := by decide
        rw [this]
        omega
    · simp only [hz, if_false]
      obtain ⟨ds, e1, -, e3, e4⟩ := ih (n / 10) (Nat.digitChar (n % 10) :: acc) (by omega)
      refine ⟨ds ++ [Nat.digitChar (n % 10)], ?_, by simp, ?_, ?_⟩
      · rw [e1, List.append_assoc]
        rfl
      · intro c hc
        rcases List.mem_append.mp hc with h1 | h1
        · exact e3 c h1
        · rw [List.mem_singleton.mp h1]
          exact hd1
      · rw [decimal_value_snoc, e4, hd2]
        omega

theorem toDigits_decimal (n : Nat) :
    Nat.toDigits 10 n ≠ [] ∧ (∀ c ∈ Nat.toDigits 10 n, isdigit c = true) ∧
      decimal_value (Nat.toDigits 10 n) = n := by
  obtain ⟨ds, e1, e2, e3, e4⟩ := toDigitsCore_decimal (n + 1) n [] (by omega)
  have e : Nat.toDigits 10 n = ds := by
    rw [Nat.toDigits, e1, List.append_nil]
  rw [e]
  exact ⟨e2, e3, e4⟩

/-! ## Cover poll lemmas -/

theorem isdigit_ne_nul (c : Char) (h : isdigit c = true) : c ≠ NUL := by
  intro e
  rw [isdigit_iff] at h
  subst e
  exact absurd h.1 (by decide)

/-- A present position reaches the cover slider and its label, and nothing else. -/
theorem ui_update_cover_state_present (u : Ui) (sl : Slider) (t : List Char) (position : Int)
    (h1 : u.slider_solskydd = some sl) (h2 : u.label_solskydd = some t) (hp : 0 ≤ position) :
    ui_update_cover_state "cover.persienn_arbetsrum".toList position u =
      { u with slider_solskydd := some (lv_slider_set_value sl position)
               label_solskydd := some (fmt_d position ++ "%".toList)
               s_updating_from_poll := false } := by
  unfold ui_update_cover_state
  simp only [ne_eq, not_true_eq_false, if_false, h1, h2, if_neg (by omega : ¬ position < 0)]

/-- The response `{"current_position":<p>}` is scanned to `p`. -/
theorem parse_json_int_current_position (buf : List Char) (p : Nat) (hp : p ≤ 2147483647)
    (hbuf : cstr buf =
      "\x7b\"current_position\":".toList ++ Nat.toDigits 10 p ++ "\x7d".toList) :
    parse_json_int buf "current_position".toList = (p : Int) := by
  obtain ⟨d1, d2, d3⟩ := toDigits_decimal p
  have e : "\x7b\"current_position\":".toList =
      "\x7b".toList ++ key_pattern "current_position".toList := by decide
  have h := parse_json_int_number buf "current_position".toList "\x7b".toList
    (Nat.toDigits 10 p) "\x7d".toList 0 (by decide)
    (by rw [hbuf, e]; simp only [List.replicate_zero, List.nil_append, List.append_assoc])
    (by decide) d1 d2 (by decide) (by rw [d3]; exact hp)
  rw [h, d3]

/-! ## State scan lemmas -/

theorem strchr_first (ch : Char) (v : List Char) :
    ∀ u : List Char, ch ∉ u → strchr (u ++ ch :: v) ch = some (ch :: v) := by
  intro u
  induction u with
  | nil => intro _; simp [strchr]
  | cons c cs ih =>
    intro h
    simp only [List.mem_cons, not_or] at h
    simp only [List.cons_append, strchr, if_neg (fun e : c = ch => h.1 e.symm), List.append_eq,
      ih h.2]

/-- The test `strncmp(val, "on", 2) == 0 && val[2] == '"'` holds exactly when the text
starts with `on"`. -/
theorem on_test_eq (v : List Char) :
    (strncmp_eq v "on".toList 2 && ((v.drop 2).head? == some '"')) =
      "on\"".toList.isPrefixOf v := by
  have e1 : "on".toList.take 2 = ['o', 'n'] := by decide
  have e2 : "on\"".toList = ['o', 'n', '"'] := by decide
  rw [e2]
  unfold strncmp_eq
  rw [e1, Bool.eq_iff_iff]
  rcases v with _ | ⟨a, _ | ⟨b, _ | ⟨c, t⟩⟩⟩
  · decide
  · simp [List.isPrefixOf]
  · simp [List.isPrefixOf]
  · simp only [List.take, List.drop, List.head?, List.isPrefixOf, Bool.and_eq_true, beq_iff_eq,
      List.cons.injEq, and_true, Option.some.injEq, Bool.and_true]
    constructor
    · rintro ⟨⟨h1, h2⟩, h3⟩; exact ⟨h1.symm, h2.symm, h3.symm⟩
    · rintro ⟨h1, h2, h3⟩; exact ⟨⟨h1.symm, h2.symm⟩, h3.symm⟩

/-- After the first `"state":` the scan jumps to the next double quote, wherever it is,
and tests the text behind it. -/
theorem poll_light_is_on_found (buf pre u v : List Char)
    (hbuf : cstr buf = pre ++ "\"state\":".toList ++ (u ++ '"' :: v))
    (hfirst : ¬ "\"state\":".toList <:+: pre ++ ("\"state\":".toList).dropLast)
    (hu : '"' ∉ u) :
    poll_light_is_on buf = some ("on\"".toList.isPrefixOf v) := by
  have hl : "\"state\":".toList.length = 8 := by decide
  unfold poll_light_is_on
  rw [hbuf, strstr_first _ _ pre hfirst]
  simp only [List.drop_left' hl, strchr_first '"' v u hu, List.drop_one, List.tail_cons,
    on_test_eq]

theorem poll_light_is_on_no_quote (buf pre rest : List Char)
    (hbuf : cstr buf = pre ++ "\"state\":".toList ++ rest)
    (hfirst : ¬ "\"state\":".toList <:+: pre ++ ("\"state\":".toList).dropLast)
    (hq : '"' ∉ rest) :
    poll_light_is_on buf = none := by
  have hl : "\"state\":".toList.length = 8 := by decide
  unfold poll_light_is_on
  rw [hbuf, strstr_first _ _ pre hfirst]
  simp only [List.drop_left' hl, strchr_eq_none '"' rest hq]

/-- A quoted string other than `on` does not start with `on"` once its closing quote is
appended. -/
theorem other_string_fails (s t : List Char) (hq : '"' ∉ s) (hs : s ≠ "on".toList) :
    "on\"".toList.isPrefixOf (s ++ '"' :: t) = false := by
  have e2 : "on\"".toList = ['o', 'n', '"'] := by decide
  have e3 : "on".toList = ['o', 'n'] := by decide
  rw [e2]
  rw [e3] at hs
  rw [Bool.eq_false_iff]
  intro h
  rcases s with _ | ⟨a, _ | ⟨b, _ | ⟨c, s1⟩⟩⟩
  · simp [List.isPrefixOf] at h
  · simp [List.isPrefixOf] at h
  · simp only [List.cons_append, List.nil_append, List.isPrefixOf, Bool.and_eq_true, beq_iff_eq,
      and_true] at h
    exact hs (by rw [← h.1, ← h.2])
  · simp only [List.cons_append, List.isPrefixOf, Bool.and_eq_true, beq_iff_eq,
      and_true] at h
    exact hq (by rw [h.2.2]; simp)

/-! ## Stored response text -/

/-- After an unchunked delivery and the terminator written by the poller, the C string in
the buffer is the C string of the first 1023 bytes of the response. -/
theorem deliver_stored (ds : List (List Char)) (buf : List Char) (hb : buf.length = 1024) :
    ∃ (buf1 : List Char) (n : Nat),
      deliver false ds (buf, 0) = some (buf1, (n : Int)) ∧
      cstr (buf1.set (n : Int).toNat NUL) = cstr (ds.flatten.take 1023) := by
  obtain ⟨buf1, n, e1, e2, e3, e4, -⟩ := deliver_from_zero false ds buf hb
  simp only [Bool.false_eq_true, if_false] at e2
  refine ⟨buf1, n, e1, ?_⟩
  have hn : n < buf1.length := by omega
  have hset : buf1.set n NUL = buf1.take n ++ NUL :: buf1.drop (n + 1) := by
    rw [List.set_eq_take_append_cons_drop, if_pos hn]
  have htake : ds.flatten.take n = ds.flatten.take 1023 := by
    by_cases hl : ds.flatten.length ≤ 1023
    · have hn2 : n = ds.flatten.length := by omega
      rw [hn2, List.take_length, List.take_of_length_le hl]
    · have hn2 : n = 1023 := by omega
      rw [hn2]
  rw [Int.toNat_ofNat, hset, cstr_cut, e4, htake]

/-- A NUL-free front part that fits the first 1023 bytes is stored whole. -/
theorem cstr_front (front back : List Char) (hf : NUL ∉ front) (hl : front.length ≤ 1023) :
    cstr ((front ++ back).take 1023) = front ++ cstr (back.take (1023 - front.length)) := by
  rw [List.take_append_eq_append_take, List.take_of_length_le hl]
  unfold cstr
  rw [List.takeWhile_append_of_pos]
  intro x hx
  simp only [bne_iff_ne, ne_eq]
  intro e
  exact hf (e ▸ hx)

/-- The first character of a stored tail is the first character of the tail. -/
theorem cstr_take_head (back : List Char) (m : Nat) (c : Char)
    (h : (cstr (back.take m)).head? = some c) : back.head? = some c := by
  cases back with
  | nil => simp [cstr] at h
  | cons r rs =>
    cases m with
    | zero => simp [cstr] at h
    | succ m =>
      unfold cstr at h
      rw [List.take_succ_cons, List.takeWhile_cons] at h
      by_cases hr : (r != NUL) = true
      · rw [if_pos hr, List.head?_cons] at h
        rw [List.head?_cons, ← Option.some.inj h]
      · rw [if_neg hr] at h
        exact absurd h (by simp)

/-! ## Claims -/

/-- C1 (counterexample).  With the guard raised in the built UI, each of the three switch
callbacks still sends one request: the guard is consulted by the slider callbacks only. -/
theorem guard_ignored_by_switch_callbacks :
    World.guarded.ui.s_updating_from_poll = true ∧
    (guld_switch_cb Outcome.ok World.guarded).map (fun w => w.posts) =
      some [{ path := "/api/services/light/turn_off".toList,
              body := "\x7b\"entity_id\":\"light.guldlampan\"\x7d".toList }] ∧
    (video_switch_cb Outcome.ok World.guarded).map (fun w => w.posts) =
      some [{ path := "/api/services/light/turn_off".toList,
              body := "\x7b\"entity_id\":\"light.videolampor\"\x7d".toList }] ∧
    (iris_switch_cb Outcome.ok World.guarded).map (fun w => w.posts) =
      some [{ path := "/api/services/light/turn_off".toList,
              body := "\x7b\"entity_id\":\"light.iris_golvlampa\"\x7d".toList }] := by
  decide

/-- C1 (amended).  While `s_updating_from_poll` is true, each of the four slider callbacks
(`bright_slider_cb`, `ct_slider_cb`, `iris_bright_slider_cb`, `solskydd_slider_cb`) returns
at once in every UI state: the whole state, the request log included, is unchanged, so no
call reaches `ha_post`.  Applying a polled snapshot (`poll_light`, `poll_cover`) sends no
request either. -/
theorem guard_suppresses_slider_callbacks (o : Outcome) (w : World)
    (h : w.ui.s_updating_from_poll = true) :
    bright_slider_cb o w = some w ∧ ct_slider_cb o w = some w ∧
    iris_bright_slider_cb o w = some w ∧ solskydd_slider_cb o w = some w ∧
    (∀ (entity_id : List Char) (r : Outcome) (lock : Bool) (w0 : World),
      (∃ w1, poll_light entity_id r lock w0 = some w1 ∧ w1.posts = w0.posts) ∧
      (∃ w1, poll_cover entity_id r lock w0 = some w1 ∧ w1.posts = w0.posts)) := by
  refine ⟨?_, ?_, ?_, ?_, fun entity_id r lock w0 =>
    ⟨poll_light_posts entity_id r lock w0, poll_cover_posts entity_id r lock w0⟩⟩
  · simp only [bright_slider_cb, h, if_true]
  · simp only [ct_slider_cb, h, if_true]
  · simp only [iris_bright_slider_cb, h, if_true]
  · simp only [solskydd_slider_cb, h, if_true]

/-- Witness of C1 (amended) at the built UI with the guard raised. -/
theorem guard_suppresses_slider_callbacks_witness :
    World.guarded.ui.s_updating_from_poll = true ∧
    bright_slider_cb Outcome.ok World.guarded = some World.guarded ∧
    solskydd_slider_cb Outcome.ok World.guarded = some World.guarded :=
  ⟨rfl, (guard_suppresses_slider_callbacks Outcome.ok World.guarded rfl).1,
    (guard_suppresses_slider_callbacks Outcome.ok World.guarded rfl).2.2.2.1⟩

/-- C2.  If `s_updating_from_poll` is false before a call of `ui_update_light_state`,
`ui_update_light_params`, `ui_update_cover_state` or of any change-event callback, it is
false when the call returns, for every entity id and argument and on every exit path;
the three update functions always return, and so does every callback in a built UI. -/
theorem guard_false_outside_snapshot (u : Ui) (h : u.s_updating_from_poll = false) :
    (∀ (entity_id : List Char) (state : Bool),
      (ui_update_light_state entity_id state u).s_updating_from_poll = false) ∧
    (∀ (entity_id : List Char) (brightness color_temp_kelvin : Int),
      (ui_update_light_params entity_id brightness color_temp_kelvin u).s_updating_from_poll
        = false) ∧
    (∀ (entity_id : List Char) (position : Int),
      (ui_update_cover_state entity_id position u).s_updating_from_poll = false) ∧
    (∀ (cb : Callback) (o : Outcome) (w w1 : World), w.ui = u → cb.run o w = some w1 →
      w1.ui.s_updating_from_poll = false) ∧
    (∀ (cb : Callback) (o : Outcome) (w : World), w.ui = u → Built u →
      ∃ w1, cb.run o w = some w1 ∧ w1.ui.s_updating_from_poll = false) := by
  refine ⟨fun entity_id state => ?_, fun entity_id b k => rfl,
    fun entity_id position => ui_update_cover_state_guard entity_id position u h,
    fun cb o w w1 hw hr => ?_, fun cb o w hw hb => ?_⟩
  · rw [ui_update_light_state_guard, h]
  · rw [callback_guard cb o w w1 hr, hw, h]
  · subst hw
    obtain ⟨w1, r, e1, -⟩ := callback_runs cb o w hb h
    exact ⟨w1, e1, by rw [callback_guard cb o w w1 e1, h]⟩

/-- Witness of C2 at the built UI: an unknown entity id, a negative position, a real
update and a gesture all leave the guard false. -/
theorem guard_false_outside_snapshot_witness :
    (ui_init Ui.boot).s_updating_from_poll = false ∧
    (ui_update_light_state "light.unknown".toList true (ui_init Ui.boot)).s_updating_from_poll
      = false ∧
    (ui_update_light_params "light.videolampor".toList 200 4500
      (ui_init Ui.boot)).s_updating_from_poll = false ∧
    (ui_update_cover_state "cover.persienn_arbetsrum".toList (-1)
      (ui_init Ui.boot)).s_updating_from_poll = false ∧
    (∃ w1, Callback.bright_slider.run Outcome.ok World.built = some w1 ∧
      w1.ui.s_updating_from_poll = false) :=
  ⟨rfl, (guard_false_outside_snapshot (ui_init Ui.boot) rfl).1 _ _,
    (guard_false_outside_snapshot (ui_init Ui.boot) rfl).2.1 _ _ _,
    (guard_false_outside_snapshot (ui_init Ui.boot) rfl).2.2.1 _ _,
    (guard_false_outside_snapshot (ui_init Ui.boot) rfl).2.2.2.2 _ _ World.built rfl
      built_ui_init⟩

/-- C4.  Absent snapshot fields never overwrite known UI values.  For every UI state and
entity id: `ui_update_light_params` with `brightness < 0` leaves both brightness sliders
and both brightness labels unchanged; with `color_temp_kelvin <= 0` it leaves `slider_ct`
and `label_ct` unchanged; for an entity id other than `light.videolampor` and
`light.iris_golvlampa` it leaves every slider and label unchanged; and
`ui_update_cover_state` with `position < 0` changes nothing at all. -/
theorem absent_fields_keep_widgets (u : Ui) (entity_id : List Char) :
    (∀ b k : Int, b < 0 →
      (ui_update_light_params entity_id b k u).slider_bright = u.slider_bright ∧
      (ui_update_light_params entity_id b k u).label_bright = u.label_bright ∧
      (ui_update_light_params entity_id b k u).slider_iris_bright = u.slider_iris_bright ∧
      (ui_update_light_params entity_id b k u).label_iris_bright = u.label_iris_bright) ∧
    (∀ b k : Int, k ≤ 0 →
      (ui_update_light_params entity_id b k u).slider_ct = u.slider_ct ∧
      (ui_update_light_params entity_id b k u).label_ct = u.label_ct) ∧
    (entity_id ≠ "light.videolampor".toList → entity_id ≠ "light.iris_golvlampa".toList →
      ∀ b k : Int,
        ui_update_light_params entity_id b k u = { u with s_updating_from_poll := false }) ∧
    (∀ b k : Int,
      (ui_update_light_params entity_id b k u).slider_solskydd = u.slider_solskydd ∧
      (ui_update_light_params entity_id b k u).label_solskydd = u.label_solskydd) ∧
    (∀ p : Int, p < 0 → ui_update_cover_state entity_id p u = u) := by
  refine ⟨fun b k hb => ?_, fun b k hk => ?_, fun h1 h2 b k => ?_, fun b k => ?_,
    fun p hp => ?_⟩
  · unfold ui_update_light_params
    split_ifs
    · have f := video_apply_color_temp_frame k
        (video_apply_brightness b { u with s_updating_from_poll := true })
      simp only [update_video_params]
      rw [video_apply_brightness_absent b _ hb] at f ⊢
      exact ⟨f.1, f.2.1, f.2.2.1, f.2.2.2.1⟩
    · simp [update_iris_params_absent b _ hb]
    · exact ⟨rfl, rfl, rfl, rfl⟩
  · unfold ui_update_light_params
    split_ifs
    · have f := video_apply_brightness_frame b { u with s_updating_from_poll := true }
      simp only [update_video_params]
      rw [video_apply_color_temp_absent k _ hk]
      exact ⟨f.1, f.2.1⟩
    · have f := update_iris_params_frame b { u with s_updating_from_poll := true }
      exact ⟨f.2.2.1, f.2.2.2.1⟩
    · exact ⟨rfl, rfl⟩
  · simp only [ui_update_light_params, if_neg h1, if_neg h2]
  · unfold ui_update_light_params
    split_ifs
    · have f := video_apply_color_temp_frame k
        (video_apply_brightness b { u with s_updating_from_poll := true })
      have g := video_apply_brightness_frame b { u with s_updating_from_poll := true }
      simp only [update_video_params]
      exact ⟨f.2.2.2.2.1.trans g.2.2.2.2.1, f.2.2.2.2.2.1.trans g.2.2.2.2.2.1⟩
    · have f := update_iris_params_frame b { u with s_updating_from_poll := true }
      exact ⟨f.2.2.2.2.1, f.2.2.2.2.2.1⟩
    · exact ⟨rfl, rfl⟩
  · unfold ui_update_cover_state
    split_ifs <;> first | rfl | (split <;> rfl)

/-- Witness of C4 at the built UI. -/
theorem absent_fields_keep_widgets_witness :
    (ui_update_light_params "light.videolampor".toList (-1) 4500 (ui_init Ui.boot)).slider_bright
      = (ui_init Ui.boot).slider_bright ∧
    (ui_update_light_params "light.videolampor".toList 200 0 (ui_init Ui.boot)).slider_ct
      = (ui_init Ui.boot).slider_ct ∧
    ui_update_light_params "light.guldlampan".toList 200 4500 (ui_init Ui.boot)
      = { ui_init Ui.boot with s_updating_from_poll := false } ∧
    ui_update_cover_state "cover.persienn_arbetsrum".toList (-1) (ui_init Ui.boot)
      = ui_init Ui.boot :=
  ⟨((absent_fields_keep_widgets (ui_init Ui.boot) _).1 (-1) 4500 (by decide)).1,
    ((absent_fields_keep_widgets (ui_init Ui.boot) _).2.1 200 0 (by decide)).1,
    (absent_fields_keep_widgets (ui_init Ui.boot) _).2.2.1 (by decide) (by decide) 200 4500,
    (absent_fields_keep_widgets (ui_init Ui.boot) _).2.2.2.2 (-1) (by decide)⟩

set_option maxRecDepth 200000 in
/-- C5 (counterexample).  A successful poll of `light.videolampor` whose response carries
`"brightness":200` leaves the brightness slider at its old value 128 when the response has
no `"state":` key, when it is chunked, when the key lies beyond the 1023 stored bytes, or
when a NUL byte precedes it; and there is no slider to set when the UI was not built. -/
theorem poll_light_brightness_not_applied :
    (poll_light "light.videolampor".toList
      (Outcome.reply "\x7b\"brightness\":200\x7d".toList) true World.built).map
        (fun w => w.ui.slider_bright) = some (some { min := 0, max := 255, value := 128 }) ∧
    (poll_light "light.videolampor".toList
      { err := 0, status := 200, chunked := true,
        data := ["\x7b\"state\":\"on\",\"brightness\":200\x7d".toList] } true World.built).map
        (fun w => w.ui.slider_bright) = some (some { min := 0, max := 255, value := 128 }) ∧
    (poll_light "light.videolampor".toList
      (Outcome.reply ("\x7b\"state\":\"on\",\"pad\":\"".toList ++ List.replicate 1010 'x' ++
        "\",\"brightness\":200\x7d".toList)) true World.built).map
        (fun w => w.ui.slider_bright) = some (some { min := 0, max := 255, value := 128 }) ∧
    (poll_light "light.videolampor".toList
      (Outcome.reply ("\x7b\"state\":\"on\",".toList ++ NUL ::
        "\"brightness\":200\x7d".toList)) true World.built).map
        (fun w => w.ui.slider_bright) = some (some { min := 0, max := 255, value := 128 }) ∧
    (poll_light "light.videolampor".toList
      (Outcome.reply "\x7b\"state\":\"on\",\"brightness\":200\x7d".toList) true World.boot).map
        (fun w => w.ui.slider_bright) = some none := by
  refine ⟨by decide, by decide, ?_, by decide, by decide⟩
  decide

/-- C5 (amended).  In a built UI, for every response received with transport success and
status 200, unchunked, while the UI lock is acquired: if the body contains `"state":`
followed somewhere later by a double quote, and the first occurrence of `"brightness":` is
followed (after any spaces) by digits denoting `b` with `0 <= b <= 255` and then a
non-digit or the end of the body, and both lie in the stored part of the response (the
double quote after `"state":` and the last digit of `b` are among the first 1023 bytes,
with no NUL byte before them), then after `poll_light("light.videolampor")` the value of
`slider_bright` is `b` and `label_bright` shows `b*100/255` followed by `%`, whatever else
the body contains and however long it is. -/
theorem poll_light_applies_brightness (w : World) (o : Outcome)
    (pre ds rest a c d : List Char) (n : Nat)
    (hbuilt : Built w.ui) (hbuf : w.s_response_buf.length = 1024)
    (herr : o.err = ESP_OK) (hstatus : o.status = 200) (hchunk : o.chunked = false)
    (hstate : o.data.flatten = a ++ "\"state\":".toList ++ (c ++ '"' :: d))
    (hstate_in : (a ++ "\"state\":".toList ++ c).length < 1023)
    (hstate_nul : NUL ∉ a ∧ NUL ∉ c)
    (hbody : o.data.flatten =
      pre ++ key_pattern "brightness".toList ++ (List.replicate n ' ' ++ (ds ++ rest)))
    (hnum_in : (pre ++ key_pattern "brightness".toList ++
      (List.replicate n ' ' ++ ds)).length ≤ 1023)
    (hnum_nul : NUL ∉ pre)
    (hfirst : ¬ key_pattern "brightness".toList <:+:
      pre ++ (key_pattern "brightness".toList).dropLast)
    (hne : ds ≠ []) (hd : ∀ c ∈ ds, isdigit c = true)
    (hrest : ∀ c, rest.head? = some c → isdigit c = false)
    (hb : decimal_value ds ≤ 255) :
    ∃ w1, poll_light "light.videolampor".toList o true w = some w1 ∧
      w1.ui.slider_bright = some { min := 0, max := 255, value := (decimal_value ds : Int) } ∧
      w1.ui.label_bright =
        some (fmt_d ((decimal_value ds : Int) * 100 / 255) ++ "%".toList) := by
  obtain ⟨buf1, n0, e1, e2⟩ := deliver_stored o.data w.s_response_buf hbuf
  -- the stored text, seen from the state key
  have hs_nul : NUL ∉ a ++ "\"state\":".toList ++ c ++ ['"'] := by
    simp only [List.mem_append, List.mem_singleton, not_or]
    exact ⟨⟨⟨hstate_nul.1, by decide⟩, hstate_nul.2⟩, by decide⟩
  have hs_len : (a ++ "\"state\":".toList ++ c ++ ['"']).length ≤ 1023 := by
    rw [List.length_append, List.length_singleton]
    omega
  have hs_eq : o.data.flatten = (a ++ "\"state\":".toList ++ c ++ ['"']) ++ d := by
    rw [hstate]
    simp only [List.append_assoc, List.singleton_append]
  have hstored1 : cstr (buf1.set (n0 : Int).toNat NUL) =
      a ++ "\"state\":".toList ++ (c ++ '"' :: cstr (d.take
        (1023 - (a ++ "\"state\":".toList ++ c ++ ['"']).length))) := by
    rw [e2, hs_eq, cstr_front _ _ hs_nul hs_len]
    simp only [List.append_assoc, List.singleton_append]
  -- the stored text, seen from the brightness key
  have hn_nul : NUL ∉ pre ++ key_pattern "brightness".toList ++
      (List.replicate n ' ' ++ ds) := by
    simp only [List.mem_append, not_or]
    refine ⟨⟨hnum_nul, by decide⟩, ?_, fun h => isdigit_ne_nul NUL (hd NUL h) rfl⟩
    intro h
    exact absurd (List.eq_of_mem_replicate h) (by decide)
  have hn_eq : o.data.flatten =
      (pre ++ key_pattern "brightness".toList ++ (List.replicate n ' ' ++ ds)) ++ rest := by
    rw [hbody]
    simp only [List.append_assoc]
  have hstored2 : cstr (buf1.set (n0 : Int).toNat NUL) =
      pre ++ key_pattern "brightness".toList ++ (List.replicate n ' ' ++ (ds ++
        cstr (rest.take (1023 - (pre ++ key_pattern "brightness".toList ++
          (List.replicate n ' ' ++ ds)).length)))) := by
    rw [e2, hn_eq, cstr_front _ _ hn_nul hnum_in]
    simp only [List.append_assoc]
  obtain ⟨sk, val, s1, s2⟩ := state_scan_succeeds a c (cstr (d.take
    (1023 - (a ++ "\"state\":".toList ++ c ++ ['"']).length)))
  rw [← hstored1] at s1
  obtain ⟨is_on, hap⟩ := poll_light_apply_scanned "light.videolampor".toList
    (buf1.set (n0 : Int).toNat NUL) w.ui sk val s1 s2
  have hparse := parse_json_int_number (buf1.set (n0 : Int).toNat NUL)
    "brightness".toList pre ds _ n (by decide) hstored2 hfirst hne hd
    (fun ch hch => hrest ch (cstr_take_head rest _ ch hch)) (by omega)
  obtain ⟨-, -, -, h4, -, -, -, h8, -, -, -⟩ := hbuilt
  obtain ⟨lb, hlb⟩ := Option.isSome_iff_exists.mp h4
  obtain ⟨sl, hsl, hmin, hmax, -, -⟩ := slider_ok_some h8
  have fr := ui_update_light_state_frame "light.videolampor".toList is_on w.ui
  have hv0 : (0 : Int) ≤ (decimal_value ds : Int) := Int.ofNat_nonneg _
  have hv1 : (decimal_value ds : Int) ≤ 255 := by exact_mod_cast hb
  obtain ⟨r1, r2⟩ := ui_update_light_params_video_brightness
    (ui_update_light_state "light.videolampor".toList is_on w.ui) sl lb
    (decimal_value ds : Int) (parse_json_int
      (buf1.set (n0 : Int).toNat NUL) "color_temp_kelvin".toList)
    (fr.1.trans hsl) (fr.2.1.trans hlb) hv0
  have hcond : ¬ (o.err ≠ ESP_OK ∨ o.status ≠ 200) := by
    rw [herr, hstatus]; simp
  have hp : poll_light "light.videolampor".toList o true w =
      some { w with
        s_response_buf := buf1.set (n0 : Int).toNat NUL,
        s_response_len := (n0 : Int),
        ui := poll_light_apply "light.videolampor".toList true
          (buf1.set (n0 : Int).toNat NUL) w.ui } := by
    simp only [poll_light, hchunk, e1, if_neg hcond]
  refine ⟨_, hp, ?_, ?_⟩
  · simp only [hap, hparse, r1]
    have : lv_slider_set_value sl (decimal_value ds : Int) =
        { min := 0, max := 255, value := (decimal_value ds : Int) } := by
      unfold lv_slider_set_value
      rw [hmin, hmax, if_neg (by omega), if_neg (by omega)]
    rw [this]
  · simp only [hap, hparse, r2, brightness_to_percent_eq _ hv0 hv1]

/-- Witness of C5 (amended): a response of 1540 bytes, delivered in three data events,
with state and brightness 200 at its front and a long member behind them, sets the slider
to 200 and the label to 78%. -/
theorem poll_light_applies_brightness_witness :
    ∃ w1, poll_light "light.videolampor".toList
        { err := 0, status := 200, chunked := false,
          data := ["\x7b\"state\":\"on\",\"bright".toList,
            "ness\":200,\"pad\":\"".toList ++ List.replicate 1500 'x', "\"\x7d".toList] }
        true World.built = some w1 ∧
      w1.ui.slider_bright = some { min := 0, max := 255, value := 200 } ∧
      w1.ui.label_bright = some "78%".toList :=
  poll_light_applies_brightness World.built
    { err := 0, status := 200, chunked := false,
      data := ["\x7b\"state\":\"on\",\"bright".toList,
        "ness\":200,\"pad\":\"".toList ++ List.replicate 1500 'x', "\"\x7d".toList] }
    "\x7b\"state\":\"on\",".toList "200".toList
    (",\"pad\":\"".toList ++ (List.replicate 1500 'x' ++ "\"\x7d".toList))
    "\x7b".toList []
    ("on\",\"brightness\":200,\"pad\":\"".toList ++
      (List.replicate 1500 'x' ++ "\"\x7d".toList))
    0 built_ui_init (List.length_replicate _ _) rfl rfl rfl rfl (by decide) (by decide)
    rfl (by decide) (by decide) (by decide) (by decide) (by decide) (by decide) (by decide)

/-- C6.  `ha_set_light_with_params(id, on, brightness, kelvin)`, for `int` values of
`brightness` and `kelvin`.  With `on` false and an id that fits the 128-byte body (at most
111 characters) it posts the turn-off action with the body `{"entity_id":"<id>"}`, the
same request whatever `brightness` and `kelvin` are.  With `on` true and an id that fits
the 192-byte body (at most 120 characters) it posts the turn-on action with the body
`{"entity_id":"<id>"`, then `,"brightness":<brightness>` exactly when `brightness >= 0`,
then `,"color_temp_kelvin":<kelvin>` exactly when `kelvin > 0`, then `}`. -/
theorem ha_set_light_with_params_request (entity_id : List Char)
    (brightness color_temp_kelvin : Int) (o : Outcome) (w : World)
    (hb : brightness ≤ 2147483647) (hk : color_temp_kelvin ≤ 2147483647) :
    (entity_id.length ≤ 111 →
      ∃ w1, ha_set_light_with_params entity_id false brightness color_temp_kelvin o w
          = some w1 ∧
        w1.posts = w.posts ++
          [{ path := "/api/services/light/turn_off".toList,
             body := "\x7b\"entity_id\":\"".toList ++ entity_id ++ "\"\x7d".toList }]) ∧
    (entity_id.length ≤ 120 →
      ∃ w1, ha_set_light_with_params entity_id true brightness color_temp_kelvin o w
          = some w1 ∧
        w1.posts = w.posts ++
          [{ path := "/api/services/light/turn_on".toList,
             body := "\x7b\"entity_id\":\"".toList ++ entity_id ++ "\"".toList ++
               (if brightness ≥ 0 then ",\"brightness\":".toList ++ fmt_d brightness else []) ++
               (if color_temp_kelvin > 0 then
                  ",\"color_temp_kelvin\":".toList ++ fmt_d color_temp_kelvin else []) ++
               "\x7d".toList }]) := by
  constructor
  · intro hid
    obtain ⟨w1, e1, e2, -⟩ :=
      ha_set_light_effect entity_id false brightness color_temp_kelvin o w hid hb hk
    exact ⟨w1, e1, e2⟩
  · intro hid
    have hfit : (body_open ++ entity_id ++ "\"".toList ++ brightness_member brightness ++
        kelvin_member color_temp_kelvin ++ "\x7d".toList).length < 192 := by
      have := brightness_member_length brightness hb
      have := kelvin_member_length color_temp_kelvin hk
      have e1 : "\"".toList.length = 1 := by decide
      have e2 : "\x7d".toList.length = 1 := by decide
      simp only [List.length_append, body_open_length, e1, e2]; omega
    obtain ⟨w1, e1, e2, -⟩ :=
      ha_set_light_on_effect entity_id brightness color_temp_kelvin o w hfit
    exact ⟨w1, e1, e2⟩

/-- Witness of C6: the spec's example `set_dimmable("light.y", true, 200, 4500)`, and the
same call with `on` false. -/
theorem ha_set_light_with_params_request_witness :
    (∃ w1, ha_set_light_with_params "light.y".toList false 200 4500 Outcome.ok World.built
        = some w1 ∧
      w1.posts = World.built.posts ++
        [{ path := "/api/services/light/turn_off".toList,
           body := "\x7b\"entity_id\":\"".toList ++ "light.y".toList ++ "\"\x7d".toList }]) ∧
    (∃ w1, ha_set_light_with_params "light.y".toList true 200 4500 Outcome.ok World.built
        = some w1 ∧
      w1.posts = World.built.posts ++
        [{ path := "/api/services/light/turn_on".toList,
           body := ("\x7b\"entity_id\":\"light.y\",\"brightness\":200," ++
             "\"color_temp_kelvin\":4500\x7d").toList }]) :=
  ⟨(ha_set_light_with_params_request "light.y".toList 200 4500 Outcome.ok World.built
      (by decide) (by decide)).1 (by decide),
   (ha_set_light_with_params_request "light.y".toList 200 4500 Outcome.ok World.built
      (by decide) (by decide)).2 (by decide)⟩

/-- C7.  `ha_post` always returns, with `ESP_OK` if and only if the transport result is
`ESP_OK` and the status is exactly 200, and with the single value `ESP_FAIL` otherwise; it
changes no widget and not the guard, whatever the outcome, and neither does any of the
three commands built on it. -/
theorem ha_post_classifies (path body : List Char) (o : Outcome) (w : World) :
    (∃ ret w1, ha_post path body o w = some (ret, w1) ∧
      (ret = ESP_OK ↔ (o.err = ESP_OK ∧ o.status = 200)) ∧
      (ret = ESP_FAIL ↔ ¬ (o.err = ESP_OK ∧ o.status = 200)) ∧
      w1.ui = w.ui) ∧
    (∀ entity_id payload : List Char,
      ∃ w1, mqtt_publish_command entity_id payload o w = some w1 ∧ w1.ui = w.ui) ∧
    (∀ (entity_id : List Char) (position : Int),
      ∃ w1, ha_cover_set_position entity_id position o w = some w1 ∧ w1.ui = w.ui) ∧
    (∀ (entity_id : List Char) (on_ : Bool) (b k : Int) (w1 : World),
      ha_set_light_with_params entity_id on_ b k o w = some w1 → w1.ui = w.ui) := by
  refine ⟨?_, fun entity_id payload => ?_, fun entity_id position => ?_,
    fun entity_id on_ b k w1 h => (ha_set_light_ui entity_id on_ b k o w w1 h).1⟩
  · obtain ⟨buf, len, h⟩ := ha_post_some path body o w
    refine ⟨_, _, h, ?_, ?_, rfl⟩
    · split_ifs with hc
      · exact ⟨fun _ => hc, fun _ => rfl⟩
      · exact ⟨fun e => absurd e (by decide), fun e => absurd e hc⟩
    · split_ifs with hc
      · exact ⟨fun e => absurd e (by decide), fun e => absurd hc e⟩
      · exact ⟨fun _ => hc, fun _ => rfl⟩
  · obtain ⟨w1, e1, -, e3⟩ := mqtt_publish_command_effect entity_id payload o w
    exact ⟨w1, e1, e3⟩
  · obtain ⟨w1, e1, -, e3⟩ := ha_cover_set_position_effect entity_id position o w
    exact ⟨w1, e1, e3⟩

/-- Witness of C7: a turn-on command answered with status 500 leaves the UI as it was. -/
theorem ha_post_classifies_witness :
    ∃ w1, ha_set_light_with_params "light.videolampor".toList true 200 4500
        { err := 0, status := 500, chunked := false, data := [] } World.built = some w1 ∧
      w1.ui = World.built.ui := by
  obtain ⟨w1, h, -, -⟩ := ha_set_light_effect "light.videolampor".toList true 200 4500
    { err := 0, status := 500, chunked := false, data := [] } World.built (by decide)
    (by decide) (by decide)
  exact ⟨w1, h, (ha_post_classifies [] [] _ World.built).2.2.2 _ _ _ _ w1 h⟩

/-- C8 (counterexample).  For a key of 61 characters the 64-byte `search` array holds only
the first 63 characters of the pattern `"<key>":`, so the scan matches text in which the
pattern itself does not occur and returns the number that follows instead of -1. -/
theorem parse_json_int_long_key :
    ¬ key_pattern long_key <:+: cstr ("\"".toList ++ long_key ++ "\"5".toList) ∧
    parse_json_int ("\"".toList ++ long_key ++ "\"5".toList) long_key = 5 := by
  constructor
  · intro h
    have e : key_pattern long_key = cstr ("\"".toList ++ long_key ++ "\"5".toList) :=
      List.IsInfix.eq_of_length h (by decide)
    exact absurd e (by decide)
  · decide

/-- C8 (amended).  For every buffer and every key of at most 60 characters (one that fits
the 64-byte `search` array): if the pattern `"<key>":` does not occur in the buffer the
result is -1; if its first occurrence is followed, after any number of spaces, by `null`
the result is -1; if it is followed, after any number of spaces, by a non-empty run of
decimal digits denoting a value that fits an `int`, and then by a non-digit or the end of
the buffer, the result is that value. -/
theorem parse_json_int_first_occurrence (buf key : List Char) (hkey : key.length ≤ 60) :
    (¬ key_pattern key <:+: cstr buf → parse_json_int buf key = -1) ∧
    (∀ (pre rest : List Char) (n : Nat),
      cstr buf = pre ++ key_pattern key ++ (List.replicate n ' ' ++ ("null".toList ++ rest)) →
      ¬ key_pattern key <:+: pre ++ (key_pattern key).dropLast →
      parse_json_int buf key = -1) ∧
    (∀ (pre ds rest : List Char) (n : Nat),
      cstr buf = pre ++ key_pattern key ++ (List.replicate n ' ' ++ (ds ++ rest)) →
      ¬ key_pattern key <:+: pre ++ (key_pattern key).dropLast →
      ds ≠ [] → (∀ c ∈ ds, isdigit c = true) →
      (∀ c, rest.head? = some c → isdigit c = false) →
      decimal_value ds ≤ 2147483647 →
      parse_json_int buf key = (decimal_value ds : Int)) := by
  exact ⟨parse_json_int_absent buf key hkey,
    fun pre rest n hbuf hfirst => parse_json_int_null buf key pre rest n hkey hbuf hfirst,
    fun pre ds rest n hbuf hfirst hne hd hrest hfit =>
      parse_json_int_number buf key pre ds rest n hkey hbuf hfirst hne hd hrest hfit⟩

/-- Witness of C8 (amended): on the body `{"brightness":128,"color_temp_kelvin":null}` the
scan gives 128 for `brightness` and -1 (absent) for `color_temp_kelvin`. -/
theorem parse_json_int_first_occurrence_witness :
    parse_json_int "\x7b\"brightness\":128,\"color_temp_kelvin\":null\x7d".toList
      "brightness".toList = 128 ∧
    parse_json_int "\x7b\"brightness\":128,\"color_temp_kelvin\":null\x7d".toList
      "color_temp_kelvin".toList = -1 :=
  ⟨(parse_json_int_first_occurrence
      "\x7b\"brightness\":128,\"color_temp_kelvin\":null\x7d".toList "brightness".toList
      (by decide)).2.2 "\x7b".toList "128".toList ",\"color_temp_kelvin\":null\x7d".toList 0
      (by decide) (by decide) (by decide) (by decide) (by decide) (by decide),
   (parse_json_int_first_occurrence
      "\x7b\"brightness\":128,\"color_temp_kelvin\":null\x7d".toList
      "color_temp_kelvin".toList (by decide)).2.1 "\x7b\"brightness\":128,".toList
      "\x7d".toList 0 (by decide) (by decide)⟩

set_option maxRecDepth 200000 in
/-- C9 (evaluation at the failing inputs).  When the text after the key holds no digits
(the buffer ends there, or a quoted string or `true` follows), `parse_json_int` returns
`atoi`'s 0, not the absent value -1.  A poll whose response is cut by the 1023-byte buffer
right after `"brightness":` therefore writes 0 to the brightness slider and `0%` to its
label, although the lamp reports 128. -/
theorem parse_json_int_no_digits :
    parse_json_int "\x7b\"state\":\"on\",\"brightness\":".toList "brightness".toList = 0 ∧
    parse_json_int "\x7b\"state\":\"on\",\"brightness\":\"high\"\x7d".toList
      "brightness".toList = 0 ∧
    parse_json_int "\x7b\"state\":\"on\",\"brightness\":true\x7d".toList
      "brightness".toList = 0 ∧
    (poll_light "light.videolampor".toList
      (Outcome.reply ("\x7b\"state\":\"on\",\"pad\":\"".toList ++ List.replicate 987 'x' ++
        "\",\"brightness\":128\x7d".toList)) true World.built).map
        (fun w => (w.s_response_len, w.ui.slider_bright, w.ui.label_bright)) =
      some (1023, some { min := 0, max := 255, value := 0 }, some "0%".toList) := by
  refine ⟨by decide, by decide, by decide, ?_⟩
  decide

/-- C10 (counterexample).  For the 61-character key, a buffer of declared length 63 that
holds the first 63 characters of the pattern (a proper prefix of it, and no complete
occurrence) and is terminated at position 63 gives 0, not -1. -/
theorem parse_json_int_truncated_long_key :
    (key_pattern long_key).take 63 <+: key_pattern long_key ∧
    (key_pattern long_key).take 63 ≠ key_pattern long_key ∧
    ¬ key_pattern long_key <:+: (key_pattern long_key).take 63 ∧
    ((key_pattern long_key).take 63 ++ [NUL]).get? 63 = some NUL ∧
    parse_json_int ((key_pattern long_key).take 63 ++ [NUL]) long_key = 0 := by
  refine ⟨List.take_prefix _ _, by decide, ?_, by decide, by decide⟩
  intro h
  have := h.length_le
  exact absurd this (by decide)

/-- C10 (amended).  For every key of at most 60 characters and every buffer terminated at
position `n` whose first `n` bytes contain no complete occurrence of the pattern
`"<key>":` (in particular when they end inside the pattern), `parse_json_int` returns -1;
and for every key the result is the same for any two buffers that agree on their first
`n` bytes and are both terminated at position `n`. -/
theorem parse_json_int_truncated_key (buf key : List Char) (n : Nat)
    (hterm : buf.get? n = some NUL) :
    (key.length ≤ 60 → ¬ key_pattern key <:+: buf.take n → parse_json_int buf key = -1) ∧
    (∀ buf2 : List Char, buf2.take n = buf.take n → buf2.get? n = some NUL →
      parse_json_int buf2 key = parse_json_int buf key) := by
  constructor
  · intro hkey hno
    apply parse_json_int_absent buf key hkey
    rw [cstr_of_terminated buf n hterm]
    intro hi
    exact hno (hi.trans (cstr_initial_segment _).isInfix)
  · intro buf2 htake hterm2
    apply parse_json_int_cstr
    rw [cstr_of_terminated buf n hterm, cstr_of_terminated buf2 n hterm2, htake]

/-- Witness of C10 (amended): a response cut inside the key `brightness`, with stale bytes
after the terminator. -/
theorem parse_json_int_truncated_key_witness :
    parse_json_int ("\x7b\"state\":\"on\",\"bright".toList ++ NUL :: "ness\":77".toList)
      "brightness".toList = -1 ∧
    parse_json_int ("\x7b\"state\":\"on\",\"bright".toList ++ NUL :: "XYZ".toList)
        "brightness".toList =
      parse_json_int ("\x7b\"state\":\"on\",\"bright".toList ++ NUL :: "ness\":77".toList)
        "brightness".toList :=
  ⟨(parse_json_int_truncated_key
      ("\x7b\"state\":\"on\",\"bright".toList ++ NUL :: "ness\":77".toList)
      "brightness".toList 21 (by decide)).1 (by decide) (by decide),
   (parse_json_int_truncated_key
      ("\x7b\"state\":\"on\",\"bright".toList ++ NUL :: "ness\":77".toList)
      "brightness".toList 21 (by decide)).2
      ("\x7b\"state\":\"on\",\"bright".toList ++ NUL :: "XYZ".toList) (by decide) (by decide)⟩

set_option maxRecDepth 200000 in
/-- C11 (evaluation at the failing input).  A response of 1025 bytes that carries
`"brightness":128` is cut by the 1023-byte buffer after `"brightness":12`.  On the stored
text `parse_json_int` returns the number 12, not the absent value -1, and the poll writes
12 to the brightness slider and `4%` to its label. -/
theorem parse_json_int_partial_number :
    parse_json_int "\x7b\"state\":\"on\",\"brightness\":12".toList "brightness".toList = 12 ∧
    ("\x7b\"state\":\"on\",\"pad\":\"".toList ++ List.replicate 985 'x' ++
      "\",\"brightness\":128\x7d".toList).length = 1025 ∧
    (poll_light "light.videolampor".toList
      (Outcome.reply ("\x7b\"state\":\"on\",\"pad\":\"".toList ++ List.replicate 985 'x' ++
        "\",\"brightness\":128\x7d".toList)) true World.built).map
        (fun w => (w.s_response_len, w.ui.slider_bright, w.ui.label_bright)) =
      some (1023, some { min := 0, max := 255, value := 12 }, some "4%".toList) := by
  refine ⟨by decide, ?_, ?_⟩
  · simp only [List.length_append, List.length_replicate]
    decide
  · decide

/-- C12 (counterexample).  When `"state":` is followed by `null` or by a number, the scan
moves on to the next double quote in the response: with a later key named `on` the value
of `is_on` is true and the poll checks the switch; with no later quote there is no value
at all (the poll returns before any update). -/
theorem poll_light_is_on_after_null :
    poll_light_is_on "\x7b\"state\":null,\"on\":1\x7d".toList = some true ∧
    poll_light_is_on "\x7b\"state\":5,\"on\":1\x7d".toList = some true ∧
    poll_light_is_on "\x7b\"state\":null\x7d".toList = none ∧
    (poll_light "light.videolampor".toList
      (Outcome.reply "\x7b\"state\":null,\"on\":1\x7d".toList) true World.built).map
        (fun w => w.ui.sw_video) = some (some true) := by
  refine ⟨by decide, by decide, by decide, ?_⟩
  decide

/-- C12 (amended).  For every buffer containing `"state":`, with `rest` the text after its
first occurrence: `is_on` is true when `rest` starts with `"on"`; it is false when `rest`
starts with any other quoted string; in general the scan looks at the first double quote
in `rest`, wherever it is, and `is_on` is true exactly when the text behind that quote
starts with `on"`; when `rest` holds no double quote `poll_light` returns early and there
is no `is_on`. -/
theorem poll_light_is_on_rule (buf pre rest : List Char)
    (hbuf : cstr buf = pre ++ "\"state\":".toList ++ rest)
    (hfirst : ¬ "\"state\":".toList <:+: pre ++ ("\"state\":".toList).dropLast) :
    (∀ t : List Char, rest = "\"on\"".toList ++ t → poll_light_is_on buf = some true) ∧
    (∀ s t : List Char, rest = '"' :: (s ++ '"' :: t) → '"' ∉ s → s ≠ "on".toList →
      poll_light_is_on buf = some false) ∧
    (∀ u v : List Char, rest = u ++ '"' :: v → '"' ∉ u →
      poll_light_is_on buf = some ("on\"".toList.isPrefixOf v)) ∧
    ('"' ∉ rest → poll_light_is_on buf = none) := by
  refine ⟨?_, ?_, ?_, fun hq => poll_light_is_on_no_quote buf pre rest hbuf hfirst hq⟩
  · intro t ht
    have e : "\"on\"".toList ++ t = [] ++ '"' :: ("on\"".toList ++ t) := by
      have e0 : "\"on\"".toList = '"' :: "on\"".toList := by decide
      rw [e0]; rfl
    rw [ht, e] at hbuf
    rw [poll_light_is_on_found buf pre [] _ hbuf hfirst (by simp)]
    have hp : "on\"".toList.isPrefixOf ("on\"".toList ++ t) = true :=
      List.isPrefixOf_iff_prefix.mpr (List.prefix_append _ _)
    rw [hp]
  · intro s t ht hq hs
    have e : '"' :: (s ++ '"' :: t) = [] ++ '"' :: (s ++ '"' :: t) := rfl
    rw [ht, e] at hbuf
    rw [poll_light_is_on_found buf pre [] _ hbuf hfirst (by simp),
      other_string_fails s t hq hs]
  · intro u v ht hu
    rw [ht] at hbuf
    exact poll_light_is_on_found buf pre u v hbuf hfirst hu

/-- Witness of C12 (amended): `"on"`, `"off"`, `"online"` and a spaced `"on"`. -/
theorem poll_light_is_on_rule_witness :
    poll_light_is_on "\x7b\"state\":\"on\"\x7d".toList = some true ∧
    poll_light_is_on "\x7b\"state\":\"off\"\x7d".toList = some false ∧
    poll_light_is_on "\x7b\"state\":\"online\"\x7d".toList = some false ∧
    poll_light_is_on "\x7b\"state\": \"on\"\x7d".toList = some true :=
  ⟨(poll_light_is_on_rule "\x7b\"state\":\"on\"\x7d".toList "\x7b".toList
      "\"on\"\x7d".toList (by decide) (by decide)).1 "\x7d".toList (by decide),
   (poll_light_is_on_rule "\x7b\"state\":\"off\"\x7d".toList "\x7b".toList
      "\"off\"\x7d".toList (by decide) (by decide)).2.1 "off".toList "\x7d".toList
      (by decide) (by decide) (by decide),
   (poll_light_is_on_rule "\x7b\"state\":\"online\"\x7d".toList "\x7b".toList
      "\"online\"\x7d".toList (by decide) (by decide)).2.1 "online".toList "\x7d".toList
      (by decide) (by decide) (by decide),
   (poll_light_is_on_rule "\x7b\"state\": \"on\"\x7d".toList "\x7b".toList
      " \"on\"\x7d".toList (by decide) (by decide)).2.2.1 " ".toList "on\"\x7d".toList
      (by decide) (by decide)⟩

/-- C13.  Dial round trip.  For every dial value `d` with `0 <= d <= 100`, the Kelvin value
the gesture callbacks compute is `2900 + d * (7000 - 2900) / 100`, and converting it back
as the reconciler does (`((k - 2900) * 100) / (7000 - 2900)`, then clamped to `[0, 100]`)
returns a value within 1 of `d`; in fact it returns `d` itself. -/
theorem dial_round_trip (d : Int) (h0 : 0 ≤ d) (h1 : d ≤ 100) :
    dial_to_kelvin d = 2900 + d * (7000 - 2900) / 100 ∧
    kelvin_to_dial (dial_to_kelvin d) - d ≤ 1 ∧
    d - kelvin_to_dial (dial_to_kelvin d) ≤ 1 ∧
    kelvin_to_dial (dial_to_kelvin d) = d := by
  have hk := dial_to_kelvin_eq d h0 h1
  have hr : kelvin_to_dial (dial_to_kelvin d) = d := by
    rw [kelvin_to_dial_linear, hk]
    omega
  exact ⟨hk, by omega, by omega, hr⟩

/-- Witness of C13 at the dial value 37. -/
theorem dial_round_trip_witness :
    dial_to_kelvin 37 = 4417 ∧ kelvin_to_dial (dial_to_kelvin 37) = 37 :=
  ⟨(dial_round_trip 37 (by decide) (by decide)).1,
    (dial_round_trip 37 (by decide) (by decide)).2.2.2⟩

/-- C14.  Brightness percentage.  For every `b` with `0 <= b <= 255` the displayed
percentage is `(b * 100) / 255`, lies in `0..100`, is 0 at 0 and 100 at 255, and is
non-decreasing in `b`.  The gesture callbacks and the reconciler compute it with the same
expression: in a built UI whose brightness slider stands at `b`, releasing the slider and
applying a polled brightness `b` put the same text on the label, for the video lamps and
for the iris lamp. -/
theorem brightness_percent (b : Int) (h0 : 0 ≤ b) (h1 : b ≤ 255) :
    brightness_to_percent b = b * 100 / 255 ∧
    0 ≤ brightness_to_percent b ∧ brightness_to_percent b ≤ 100 ∧
    brightness_to_percent 0 = 0 ∧ brightness_to_percent 255 = 100 ∧
    (∀ b2 : Int, b ≤ b2 → b2 ≤ 255 → brightness_to_percent b ≤ brightness_to_percent b2) ∧
    (∀ (o : Outcome) (w : World) (k : Int) (sb : Slider), Built w.ui →
      w.ui.s_updating_from_poll = false → w.ui.slider_bright = some sb → sb.value = b →
      ∃ w1, bright_slider_cb o w = some w1 ∧
        w1.ui.label_bright = some (fmt_d (b * 100 / 255) ++ "%".toList) ∧
        (ui_update_light_params "light.videolampor".toList b k w.ui).label_bright =
          some (fmt_d (b * 100 / 255) ++ "%".toList)) ∧
    (∀ (o : Outcome) (w : World) (k : Int) (sb : Slider), Built w.ui →
      w.ui.s_updating_from_poll = false → w.ui.slider_iris_bright = some sb → sb.value = b →
      ∃ w1, iris_bright_slider_cb o w = some w1 ∧
        w1.ui.label_iris_bright = some (fmt_d (b * 100 / 255) ++ "%".toList) ∧
        (ui_update_light_params "light.iris_golvlampa".toList b k w.ui).label_iris_bright =
          some (fmt_d (b * 100 / 255) ++ "%".toList)) := by
  have hp := brightness_to_percent_eq b h0 h1
  refine ⟨hp, by rw [hp]; omega, by rw [hp]; omega, by decide, by decide, ?_, ?_, ?_⟩
  · intro b2 h2 h3
    rw [hp, brightness_to_percent_eq b2 (by omega) h3]
    omega
  · intro o w k sb hb hg hsb hval
    obtain ⟨-, h2, -, h4, -, -, -, -, h9, -, -⟩ := hb
    obtain ⟨v, hv⟩ := Option.isSome_iff_exists.mp h2
    obtain ⟨lb, hlb⟩ := Option.isSome_iff_exists.mp h4
    obtain ⟨sc, hsc, -, -, sc0, sc1⟩ := slider_ok_some h9
    obtain ⟨w1, e1, -, e3⟩ :=
      bright_slider_cb_effect o w v sb sc lb hg hv hsb hsc hlb (by omega) sc0 sc1
    refine ⟨w1, e1, ?_, ?_⟩
    · rw [e3, hval, hp]
    · rw [(ui_update_light_params_video_brightness w.ui sb lb b k hsb hlb h0).2, hp]
  · intro o w k sb hb hg hsb hval
    obtain ⟨-, -, h3, -, -, h6, -, -, -, -, -⟩ := hb
    obtain ⟨v, hv⟩ := Option.isSome_iff_exists.mp h3
    obtain ⟨lb, hlb⟩ := Option.isSome_iff_exists.mp h6
    obtain ⟨w1, e1, -, e3⟩ :=
      iris_bright_slider_cb_effect o w v sb lb hg hv hsb hlb (by omega)
    refine ⟨w1, e1, ?_, ?_⟩
    · rw [e3, hval, hp]
    · rw [(ui_update_light_params_iris_brightness w.ui sb lb b k hsb hlb h0).2, hp]

/-- Witness of C14 at `b = 128` in the built UI, whose brightness slider stands at 128:
both paths show `50%`. -/
theorem brightness_percent_witness :
    brightness_to_percent 128 = 50 ∧
    ∃ w1, bright_slider_cb Outcome.ok World.built = some w1 ∧
      w1.ui.label_bright = some "50%".toList ∧
      (ui_update_light_params "light.videolampor".toList 128 4500 World.built.ui).label_bright =
        some "50%".toList :=
  ⟨(brightness_percent 128 (by decide) (by decide)).1,
    (brightness_percent 128 (by decide) (by decide)).2.2.2.2.2.2.1 Outcome.ok World.built 4500
      (lv_slider_set_value (lv_slider_set_range lv_slider_create 0 255) 128)
      built_ui_init rfl rfl rfl⟩

/-- C15.  Kelvin-to-dial is the clamped linear map.  For every polled `color_temp_kelvin`
`k > 0` (any value, not only 2900..7000) the dial value equals
`((k - 2900) * 100) / (7000 - 2900)` clamped to `[0, 100]`, hence lies in `0..100`; it is 0
for every `k <= 2900`, 100 for every `k >= 7000`, and non-decreasing in `k`; and it is the
value `ui_update_light_params` writes to `slider_ct` in a built UI. -/
theorem kelvin_to_dial_clamped_linear (k : Int) (h0 : 0 < k) :
    kelvin_to_dial k = max 0 (min 100 ((k - 2900) * 100 / (7000 - 2900))) ∧
    0 ≤ kelvin_to_dial k ∧ kelvin_to_dial k ≤ 100 ∧
    (k ≤ 2900 → kelvin_to_dial k = 0) ∧
    (7000 ≤ k → kelvin_to_dial k = 100) ∧
    (∀ k2 : Int, k ≤ k2 → kelvin_to_dial k ≤ kelvin_to_dial k2) ∧
    (∀ (b : Int) (u : Ui), Built u →
      (ui_update_light_params "light.videolampor".toList b k u).slider_ct =
        some { min := 0, max := 100, value := kelvin_to_dial k }) := by
  have hl := kelvin_to_dial_linear k
  have hr := kelvin_to_dial_range k
  refine ⟨hl, hr.1, hr.2, fun h => by rw [hl]; omega, fun h => by rw [hl]; omega, ?_, ?_⟩
  · intro k2 h2
    rw [hl, kelvin_to_dial_linear k2]
    omega
  · intro b u hb
    obtain ⟨-, -, -, -, h5, -, -, -, h9, -, -⟩ := hb
    obtain ⟨lc, hlc⟩ := Option.isSome_iff_exists.mp h5
    obtain ⟨sc, hsc, hmin, hmax, -, -⟩ := slider_ok_some h9
    rw [(ui_update_light_params_video_color_temp u sc lc b k hsc hlc h0).1]
    unfold lv_slider_set_value
    rw [hmin, hmax, if_neg (by omega), if_neg (by omega)]

/-- Witness of C15 at 4500 K (dial value 39, written to the dial of the built UI) and at
21477737 K, far outside the range of the dial (dial value 100). -/
theorem kelvin_to_dial_clamped_linear_witness :
    kelvin_to_dial 4500 = 39 ∧ kelvin_to_dial 21477737 = 100 ∧
    (ui_update_light_params "light.videolampor".toList (-1) 4500 (ui_init Ui.boot)).slider_ct =
      some { min := 0, max := 100, value := kelvin_to_dial 4500 } :=
  ⟨(kelvin_to_dial_clamped_linear 4500 (by decide)).1,
    (kelvin_to_dial_clamped_linear 21477737 (by decide)).2.2.2.2.1 (by decide),
    (kelvin_to_dial_clamped_linear 4500 (by decide)).2.2.2.2.2.2 (-1) (ui_init Ui.boot)
      built_ui_init⟩

/-- C16 (counterexample).  A poll of the cover answered with transport success, status 200
and the body `{"current_position":42}`, the UI lock acquired, leaves the cover slider at 0
and the label at `--%` when the response is chunked: `http_event_handler` stores no byte
of a chunked response.  Before `ui_init` has built the widgets there is nothing to set. -/
theorem poll_cover_chunked_not_applied :
    (poll_cover "cover.persienn_arbetsrum".toList
      { err := 0, status := 200, chunked := true,
        data := ["\x7b\"current_position\":42\x7d".toList] } true World.built).map
        (fun w => (w.s_response_len, w.ui.slider_solskydd, w.ui.label_solskydd)) =
      some (0, some { min := 0, max := 100, value := 0 }, some "--%".toList) ∧
    (poll_cover "cover.persienn_arbetsrum".toList
      (Outcome.reply "\x7b\"current_position\":42\x7d".toList) true World.boot).map
        (fun w => (w.ui.slider_solskydd, w.ui.label_solskydd)) = some (none, none) := by
  refine ⟨by decide, ?_⟩
  decide

/-- C16 (amended).  End-to-end cover poll.  In a built UI, for every position `p` in
`0..100`, polling `cover.persienn_arbetsrum` with transport success, status 200, the body
`{"current_position":p}` delivered unchunked (in any number of data events) and the UI
lock acquired sets the cover slider value to `p` and the cover label to the decimal text
of `p` followed by `%`, changes no other widget, sends no request, and leaves the guard
false when `poll_cover` returns. -/
theorem poll_cover_applies_position (w : World) (o : Outcome) (p : Nat)
    (hbuilt : Built w.ui) (hbuf : w.s_response_buf.length = 1024)
    (herr : o.err = ESP_OK) (hstatus : o.status = 200) (hchunk : o.chunked = false)
    (hbody : o.data.flatten =
      "\x7b\"current_position\":".toList ++ Nat.toDigits 10 p ++ "\x7d".toList)
    (hp : p ≤ 100) :
    ∃ w1, poll_cover "cover.persienn_arbetsrum".toList o true w = some w1 ∧
      w1.ui = { w.ui with
        slider_solskydd := some { min := 0, max := 100, value := (p : Int) }
        label_solskydd := some (Nat.toDigits 10 p ++ "%".toList)
        s_updating_from_poll := false } ∧
      w1.posts = w.posts := by
  obtain ⟨d1, d2, d3⟩ := toDigits_decimal p
  have hdl : (Nat.toDigits 10 p).length ≤ 3 :=
    Nat.toDigitsCore_length 10 (by decide) (p + 1) p 3 (by omega) (by norm_num)
  have hlen : o.data.flatten.length ≤ 1023 := by
    have e1 : "\x7b\"current_position\":".toList.length = 20 := by decide
    have e2 : "\x7d".toList.length = 1 := by decide
    rw [hbody]
    simp only [List.length_append, e1, e2]
    omega
  have hnul : NUL ∉ o.data.flatten := by
    rw [hbody]
    simp only [List.mem_append, not_or]
    exact ⟨⟨by decide, fun h => isdigit_ne_nul NUL (d2 NUL h) rfl⟩, by decide⟩
  obtain ⟨buf1, e1, e2⟩ := deliver_body o.data w.s_response_buf hbuf hlen hnul
  have hparse := parse_json_int_current_position
    (buf1.set (o.data.flatten.length : Int).toNat NUL) p (by omega) (by rw [e2, hbody])
  obtain ⟨-, -, -, -, -, -, h7, -, -, -, h11⟩ := hbuilt
  obtain ⟨ls, hls⟩ := Option.isSome_iff_exists.mp h7
  obtain ⟨sl, hsl, hmin, hmax, -, -⟩ := slider_ok_some h11
  have hcond : ¬ (o.err ≠ ESP_OK ∨ o.status ≠ 200) := by
    rw [herr, hstatus]; simp
  have hset : lv_slider_set_value sl (p : Int) = { min := 0, max := 100, value := (p : Int) } := by
    unfold lv_slider_set_value
    rw [hmin, hmax, if_neg (by omega), if_neg (by omega)]
  have hfmt : fmt_d (p : Int) = Nat.toDigits 10 p := by
    unfold fmt_d
    rw [if_neg (by omega), Int.toNat_ofNat]
  have hp0 : (0 : Int) ≤ (p : Int) := Int.ofNat_nonneg _
  have hui := ui_update_cover_state_present w.ui sl ls (p : Int) hsl hls hp0
  rw [hset, hfmt] at hui
  have hpoll : poll_cover "cover.persienn_arbetsrum".toList o true w =
      some { w with
        s_response_buf := buf1.set (o.data.flatten.length : Int).toNat NUL,
        s_response_len := (o.data.flatten.length : Int),
        ui := ui_update_cover_state "cover.persienn_arbetsrum".toList (p : Int) w.ui } := by
    simp only [poll_cover, hchunk, e1, if_neg hcond, hparse, if_true]
  exact ⟨_, hpoll, hui, rfl⟩

/-- Witness of C16 (amended): the spec's example, position 42 in the built UI. -/
theorem poll_cover_applies_position_witness :
    ∃ w1, poll_cover "cover.persienn_arbetsrum".toList
        (Outcome.reply "\x7b\"current_position\":42\x7d".toList) true World.built = some w1 ∧
      w1.ui = { World.built.ui with
        slider_solskydd := some { min := 0, max := 100, value := 42 }
        label_solskydd := some "42%".toList
        s_updating_from_poll := false } ∧
      w1.posts = World.built.posts :=
  poll_cover_applies_position World.built
    (Outcome.reply "\x7b\"current_position\":42\x7d".toList) 42 built_ui_init
    (List.length_replicate _ _) rfl rfl rfl (by decide) (by decide)

/-- C17.  The response buffer never overflows.  Starting from `s_response_len = 0` with the
1024-byte array, after any sequence of data events (of any total size) the handler has
returned with `0 <= s_response_len <= HTTP_BUF_SIZE - 1 = 1023`; the array still has 1024
bytes; its first `s_response_len` bytes are the first `s_response_len` bytes of the
concatenated event data; no byte from index `s_response_len` on was written, so nothing
was copied at or above index 1023; the state reached is the state from which any further
event is handled, and one more event again leaves the length at most 1023.  The index
`s_response_len`, where `poll_light` and `poll_cover` write the terminator, is therefore
inside the array, and both pollers return with these bounds. -/
theorem response_buffer_never_overflows (chunked : Bool) (ds : List (List Char))
    (buf : List Char) (hb : buf.length = 1024) :
    (∃ (buf1 : List Char) (n : Nat),
      deliver chunked ds (buf, 0) = some (buf1, (n : Int)) ∧
      (0 : Int) ≤ (n : Int) ∧ (n : Int) ≤ HTTP_BUF_SIZE - 1 ∧ HTTP_BUF_SIZE - 1 = 1023 ∧
      n = (if chunked then 0 else min 1023 ds.flatten.length) ∧
      buf1.length = 1024 ∧
      buf1.take n = ds.flatten.take n ∧
      buf1.drop n = buf.drop n ∧
      n < buf1.length ∧ (buf1.set n NUL).length = 1024 ∧
      (∀ ds2 : List (List Char),
        deliver chunked (ds ++ ds2) (buf, 0) = deliver chunked ds2 (buf1, (n : Int))) ∧
      (∀ d : List Char, ∃ (buf2 : List Char) (n2 : Nat),
        http_event_handler chunked d (buf1, (n : Int)) = some (buf2, (n2 : Int)) ∧
        n ≤ n2 ∧ n2 ≤ 1023 ∧ n2 - n ≤ d.length)) ∧
    (∀ (entity_id : List Char) (o : Outcome) (lock : Bool) (w : World),
      w.s_response_buf.length = 1024 →
      (∃ w1, poll_light entity_id o lock w = some w1 ∧ w1.s_response_buf.length = 1024 ∧
        0 ≤ w1.s_response_len ∧ w1.s_response_len ≤ 1023) ∧
      (∃ w1, poll_cover entity_id o lock w = some w1 ∧ w1.s_response_buf.length = 1024 ∧
        0 ≤ w1.s_response_len ∧ w1.s_response_len ≤ 1023)) := by
  constructor
  · obtain ⟨buf1, n, e1, e2, e3, e4, e5⟩ := deliver_from_zero chunked ds buf hb
    have hn : n ≤ 1023 := by rw [e2]; split_ifs <;> omega
    refine ⟨buf1, n, e1, Int.ofNat_nonneg _, ?_, by decide, e2, e3, e4, e5, by omega,
      by rw [List.length_set]; exact e3, ?_, ?_⟩
    · simp only [HTTP_BUF_SIZE]; omega
    · intro ds2
      rw [deliver_append, e1]
      rfl
    · intro d
      exact http_event_handler_bounded chunked d buf1 n hn
  · intro entity_id o lock w hw
    exact ⟨poll_light_buffer entity_id o lock w hw, poll_cover_buffer entity_id o lock w hw⟩

/-- Witness of C17: three data events of 600 bytes each into the zeroed array stop at
length 1023. -/
theorem response_buffer_never_overflows_witness :
    ∃ (buf1 : List Char) (n : Nat),
      deliver false [List.replicate 600 'a', List.replicate 600 'b', List.replicate 600 'c']
        (World.boot.s_response_buf, 0) = some (buf1, (n : Int)) ∧
      (n : Int) ≤ HTTP_BUF_SIZE - 1 ∧ buf1.length = 1024 ∧ n < buf1.length := by
  obtain ⟨buf1, n, e1, -, e2, -, -, e3, -, -, e4, -⟩ :=
    (response_buffer_never_overflows false
      [List.replicate 600 'a', List.replicate 600 'b', List.replicate 600 'c']
      World.boot.s_response_buf (List.length_replicate _ _)).1
  exact ⟨buf1, n, e1, e2, e3, e4⟩

end SmartHomePanel
